import Mathlib

/-!
Shallow embedding of the address-book / notes program (`src/main.py`) and
verification of its specification claims.

Conventions of the embedding:
* Python `dict` (insertion ordered, unique keys) is an association list
  `List (String × α)` together with the operations `dlookup`, `dinsert`,
  `dpop`, `dmodify`, `values`, which mirror `d[k]`, `d[k] = v`, `d.pop(k)`,
  in-place value mutation, and `d.values()`.
* Python `datetime` values are `PyDateTime`: a Gregorian date plus a
  time-of-day counter (`tod`, microseconds since midnight).  Comparison of
  two datetimes is comparison of `(toOrdinal, tod)` lexicographically,
  which agrees with Python's field-wise comparison on valid dates.
* Functions that raise exceptions return `Option`/`Except`; functions that
  mutate an object in place return the new value of that object.
-/

/-- Codepoint ranges of the Unicode general category Nd (decimal digits).
Python's `re` module matches `\d` (for `str` patterns) against exactly this
category, and `int()` accepts these digits with their script-local values.
Each range holds consecutive groups of digits `0..9` starting at the low
end of the range. -/
def ndRanges : List (Nat × Nat) :=
  [(0x0030, 0x0039), (0x0660, 0x0669), (0x06F0, 0x06F9), (0x07C0, 0x07C9),
   (0x0966, 0x096F), (0x09E6, 0x09EF), (0x0A66, 0x0A6F), (0x0AE6, 0x0AEF),
   (0x0B66, 0x0B6F), (0x0BE6, 0x0BEF), (0x0C66, 0x0C6F), (0x0CE6, 0x0CEF),
   (0x0D66, 0x0D6F), (0x0DE6, 0x0DEF), (0x0E50, 0x0E59), (0x0ED0, 0x0ED9),
   (0x0F20, 0x0F29), (0x1040, 0x1049), (0x1090, 0x1099), (0x17E0, 0x17E9),
   (0x1810, 0x1819), (0x1946, 0x194F), (0x19D0, 0x19D9), (0x1A80, 0x1A89),
   (0x1A90, 0x1A99), (0x1B50, 0x1B59), (0x1BB0, 0x1BB9), (0x1C40, 0x1C49),
   (0x1C50, 0x1C59), (0xA620, 0xA629), (0xA8D0, 0xA8D9), (0xA900, 0xA909),
   (0xA9D0, 0xA9D9), (0xA9F0, 0xA9F9), (0xAA50, 0xAA59), (0xABF0, 0xABF9),
   (0xFF10, 0xFF19), (0x104A0, 0x104A9), (0x10D30, 0x10D39),
   (0x11066, 0x1106F), (0x110F0, 0x110F9), (0x11136, 0x1113F),
   (0x111D0, 0x111D9), (0x112F0, 0x112F9), (0x11450, 0x11459),
   (0x114D0, 0x114D9), (0x11650, 0x11659), (0x116C0, 0x116C9),
   (0x11730, 0x11739), (0x118E0, 0x118E9), (0x11950, 0x11959),
   (0x11C50, 0x11C59), (0x11D50, 0x11D59), (0x11DA0, 0x11DA9),
   (0x16A60, 0x16A69), (0x16AC0, 0x16AC9), (0x16B50, 0x16B59),
   (0x1D7CE, 0x1D7FF), (0x1E140, 0x1E149), (0x1E2F0, 0x1E2F9),
   (0x1E4F0, 0x1E4F9), (0x1E950, 0x1E959), (0x1FBF0, 0x1FBF9)]

/-- Model of the regex class `\d` for Python `str` patterns: any Unicode
decimal digit (category Nd). -/
def isUniDigit (c : Char) : Bool :=
  ndRanges.any (fun p => decide (p.1 ≤ c.toNat) && decide (c.toNat ≤ p.2))

/-- Numeric value of a Unicode decimal digit (0 for non-digits), as used by
Python `int()` on digit strings. -/
def digitVal (c : Char) : Nat :=
  match ndRanges.find? (fun p => decide (p.1 ≤ c.toNat) && decide (c.toNat ≤ p.2)) with
  | some p => (c.toNat - p.1) % 10
  | none => 0

/-- Model of `re.fullmatch(r"\d{n}", cs)`: exactly `n` decimal digits and
nothing else. -/
def matchDigits : Nat → List Char → Bool
  | 0, [] => true
  | 0, _ :: _ => false
  | _ + 1, [] => false
  | n + 1, c :: cs => isUniDigit c && matchDigits n cs

/-- Model of `Phone.validate` (src/main.py lines 33-34):
`bool(re.fullmatch(r"\d{10}", value))`. -/
def Phone.validate (s : String) : Bool :=
  matchDigits 10 s.data

/-- Gregorian leap-year test, as in Python's `datetime` module. -/
def isLeap (y : Nat) : Bool :=
  y % 4 == 0 && (y % 100 != 0 || y % 400 == 0)

/-- Number of days of month `m` (1-12) in year `y`, as in `datetime`. -/
def daysInMonth (y m : Nat) : Nat :=
  if m = 2 then (if isLeap y then 29 else 28)
  else if m = 4 ∨ m = 6 ∨ m = 9 ∨ m = 11 then 30
  else 31

/-- Number of days in year `y` before the first day of month `m`. -/
def daysBeforeMonth (y : Nat) : Nat → Nat
  | 0 => 0
  | m + 1 => if m = 0 then 0 else daysBeforeMonth y m + daysInMonth y m

/-- Number of days before January 1 of year `y` in the proleptic Gregorian
calendar (as in `datetime.date.toordinal`). -/
def daysBeforeYear (y : Nat) : Nat :=
  365 * (y - 1) + (y - 1) / 4 - (y - 1) / 100 + (y - 1) / 400

/-- Proleptic Gregorian ordinal of a date, as in `datetime.date.toordinal`. -/
def toOrdinal (y m d : Nat) : Nat :=
  daysBeforeYear y + daysBeforeMonth y m + d

/-- Model of a Python `datetime.datetime`: a calendar date plus the time of
day in microseconds since midnight.  `datetime.strptime(_, "%d.%m.%Y")`
produces values with `tod = 0`; `datetime.today()` carries the wall-clock
time of day. -/
structure PyDateTime where
  year : Nat
  month : Nat
  day : Nat
  tod : Nat
deriving DecidableEq

/-- Day ordinal of a datetime's date component. -/
def PyDateTime.ord (t : PyDateTime) : Nat :=
  toOrdinal t.year t.month t.day

/-- Model of Python datetime `<`: lexicographic on (date, time of day). -/
def dtLt (a b : PyDateTime) : Bool :=
  decide (a.ord < b.ord) || (decide (a.ord = b.ord) && decide (a.tod < b.tod))

/-- Model of Python datetime `<=`: lexicographic on (date, time of day). -/
def dtLe (a b : PyDateTime) : Bool :=
  decide (a.ord < b.ord) || (decide (a.ord = b.ord) && decide (a.tod ≤ b.tod))

/-- Model of `b <= today + timedelta(days=days)`: adding a whole number of
days shifts the ordinal and keeps the time of day. -/
def dtLeTarget (b today : PyDateTime) (days : Nat) : Bool :=
  decide (b.ord < today.ord + days) ||
    (decide (b.ord = today.ord + days) && decide (b.tod ≤ today.tod))

/-- Model of `t.replace(year=y)`: keeps month, day and time, fails (raises
`ValueError`) when the day does not exist in the target month/year, which
happens exactly for Feb 29 in a non-leap target year. -/
def pyReplaceYear (t : PyDateTime) (y : Nat) : Option PyDateTime :=
  if t.day ≤ daysInMonth y t.month then some { t with year := y } else none

/-- Model of `Name` (src/main.py lines 22-24): the constructor performs no
validation and stores the given string unchanged. -/
structure Name where
  value : String
deriving DecidableEq

/-- Model of `Record` (src/main.py lines 72-78): one name, optional
birthday/email/address, an ordered list of phone values.  Phones are kept
as their string values (`Phone.value`); a `Phone` object is only ever built
after `Phone.validate` succeeded. -/
structure Record where
  name : Name
  birthday : Option PyDateTime
  phones : List String
  email : Option String
  address : Option String
deriving DecidableEq

/-- Model of `Record.add_phone` (lines 83-85): `Phone(phone)` raises when
validation fails (leaving the record unchanged, reported here as
`some errorMessage`); otherwise the new value is appended. -/
def addPhone (r : Record) (phone : String) : Record × Option String :=
  if Phone.validate phone then ({ r with phones := r.phones ++ [phone] }, none)
  else (r, some "Phone number must be 10 digits.")

/-- Model of `Record.remove_phone` (lines 93-94): keeps exactly the phones
whose value differs from `phone`. -/
def removePhone (r : Record) (phone : String) : Record :=
  { r with phones := r.phones.filter (fun p => p != phone) }

/-- Model of `Record.edit_phone` (lines 96-98): `remove_phone(old)` then
`add_phone(new)`. -/
def editPhone (r : Record) (oldPhone newPhone : String) : Record × Option String :=
  addPhone (removePhone r oldPhone) newPhone

/-- Association-list model of `dict.get(k, None)` / `d[k]`. -/
def dlookup {α : Type} (k : String) : List (String × α) → Option α
  | [] => none
  | (k1, v) :: rest => if k1 = k then some v else dlookup k rest

/-- Association-list model of `k in d`. -/
def dcontains {α : Type} (k : String) (l : List (String × α)) : Bool :=
  (dlookup k l).isSome

/-- Association-list model of `d[k] = v`: replaces the value in place when
the key exists (keeping its position), appends a new entry otherwise. -/
def dinsert {α : Type} (k : String) (v : α) : List (String × α) → List (String × α)
  | [] => [(k, v)]
  | (k1, v1) :: rest => if k1 = k then (k, v) :: rest else (k1, v1) :: dinsert k v rest

/-- Association-list model of `d.pop(k)`: removes the entry and returns its
value. -/
def dpop {α : Type} (k : String) : List (String × α) → Option α × List (String × α)
  | [] => (none, [])
  | (k1, v) :: rest =>
    if k1 = k then (some v, rest)
    else
      match dpop k rest with
      | (r, rest1) => (r, (k1, v) :: rest1)

/-- Association-list model of mutating the value stored under `k` in place
(position preserved). -/
def dmodify {α : Type} (k : String) (f : α → α) : List (String × α) → List (String × α)
  | [] => []
  | (k1, v) :: rest => if k1 = k then (k1, f v) :: rest else (k1, v) :: dmodify k f rest

/-- Association-list model of `d.values()`. -/
def values {α : Type} (l : List (String × α)) : List α :=
  l.map (fun p => p.2)

/-- Model of `AddressBook`: a dict from name string to record. -/
abbrev AddressBook := List (String × Record)

/-- Model of `AddressBook.add_record` (lines 119-120):
`self.data[record.name.value] = record`. -/
def addRecord (book : AddressBook) (r : Record) : AddressBook :=
  dinsert r.name.value r book

/-- Model of `AddressBook.find` (lines 122-123). -/
def findRecord (book : AddressBook) (name : String) : Option Record :=
  dlookup name book

/-- Loop body of `AddressBook.get_upcoming_birthdays` (lines 125-143),
processing the records in iteration order.  A `ValueError` raised by
`replace` aborts the whole call (`Except.error`). -/
def upcomingGo (today : PyDateTime) (days : Nat) : List Record → Except String (List String)
  | [] => Except.ok []
  | r :: rest =>
    match r.birthday with
    | none => upcomingGo today days rest
    | some b =>
      match pyReplaceYear b today.year with
      | none => Except.error "day is out of range for month"
      | some b1 =>
        match (if dtLt b1 today then pyReplaceYear b1 (today.year + 1) else some b1) with
        | none => Except.error "day is out of range for month"
        | some b2 =>
          match upcomingGo today days rest with
          | Except.error e => Except.error e
          | Except.ok names =>
            Except.ok
              (if dtLe today b2 && dtLeTarget b2 today days then r.name.value :: names
               else names)

/-- Model of `AddressBook.get_upcoming_birthdays` (lines 125-143), with the
current datetime made explicit (`today = datetime.today()` in the source,
a datetime carrying the wall-clock time of day). -/
def getUpcomingBirthdays (book : AddressBook) (today : PyDateTime) (days : Nat) :
    Except String (List String) :=
  upcomingGo today days (values book)

/-- Model of `Note` (src/main.py lines 152-156). -/
structure Note where
  title : String
  content : String
  tags : List String
deriving DecidableEq

/-- Model of `Note.add_tag` (lines 158-160): append only when absent. -/
def addTag (n : Note) (tag : String) : Note :=
  if tag ∈ n.tags then n else { n with tags := n.tags ++ [tag] }

/-- Discriminated result of `NoteBook.add_note`, which in the source
returns the corresponding message string. -/
inductive AddStatus
  | added
  | alreadyExists
deriving DecidableEq

/-- Model of `NoteBook`: a dict from title to note. -/
abbrev NoteBook := List (String × Note)

/-- Model of `NoteBook.add_note` (lines 168-172): reports a collision and
leaves the book unchanged when the title exists, otherwise stores a fresh
note with an empty tag list. -/
def addNote (nb : NoteBook) (title content : String) : NoteBook × AddStatus :=
  if dcontains title nb then (nb, AddStatus.alreadyExists)
  else (dinsert title ⟨title, content, []⟩ nb, AddStatus.added)

/-- Model of `NoteBook.edit_note_title` (lines 180-188):
`self.data[new_title] = self.data.pop(current_title)` followed by updating
the note's own title field; no collision check. -/
def editNoteTitle (nb : NoteBook) (currentTitle newTitle : String) : NoteBook :=
  if dcontains currentTitle nb then
    match dpop currentTitle nb with
    | (some v, rest) => dinsert newTitle { v with title := newTitle } rest
    | (none, _) => nb
  else nb

/-- Model of `NoteBook.edit_note_content` (lines 190-193): overwrite the
content in place when the title exists, otherwise do nothing. -/
def editNoteContent (nb : NoteBook) (title newContent : String) : NoteBook :=
  if dcontains title nb then dmodify title (fun n => { n with content := newContent }) nb
  else nb

/-- Model of the whitespace class stripped by Python `str.strip()` (and
used by `str.split()`). -/
def isPySpace (c : Char) : Bool :=
  c = ' ' || c = '\t' || c = '\n' || c = '\r' || c.toNat = 0x0b || c.toNat = 0x0c ||
    c.toNat = 0x1c || c.toNat = 0x1d || c.toNat = 0x1e || c.toNat = 0x1f ||
    c.toNat = 0x85 || c.toNat = 0xa0 || c.toNat = 0x1680 ||
    (decide (0x2000 ≤ c.toNat) && decide (c.toNat ≤ 0x200a)) ||
    c.toNat = 0x2028 || c.toNat = 0x2029 || c.toNat = 0x202f ||
    c.toNat = 0x205f || c.toNat = 0x3000

/-- Model of Python `str.strip()`. -/
def pyStrip (s : String) : String :=
  ⟨((s.data.dropWhile isPySpace).reverse.dropWhile isPySpace).reverse⟩

/-- Runs `(lo, hi, gap, targetLo)` of the single-character lowercase
mapping of Unicode 14.0, the mapping CPython 3.11 `str.lower()` applies: a
codepoint `n` with `lo ≤ n ≤ hi` and `(n - lo) % gap = 0` lowercases to
`targetLo + (n - lo)`.  The two characters `str.lower()` treats specially,
U+0130 (dotted capital I, which expands to two characters) and U+03A3
(capital sigma, which is context sensitive), are handled separately and do
not appear here. -/
def lowerRuns : List (Nat × Nat × Nat × Nat) :=
  [(0x41, 0x5A, 1, 0x61), (0xC0, 0xD6, 1, 0xE0), (0xD8, 0xDE, 1, 0xF8),
   (0x100, 0x12E, 2, 0x101), (0x132, 0x136, 2, 0x133), (0x139, 0x147, 2, 0x13A),
   (0x14A, 0x176, 2, 0x14B), (0x178, 0x178, 1, 0xFF), (0x179, 0x17D, 2, 0x17A),
   (0x181, 0x181, 1, 0x253), (0x182, 0x184, 2, 0x183), (0x186, 0x186, 1, 0x254),
   (0x187, 0x187, 1, 0x188), (0x189, 0x18A, 1, 0x256), (0x18B, 0x18B, 1, 0x18C),
   (0x18E, 0x18E, 1, 0x1DD), (0x18F, 0x18F, 1, 0x259), (0x190, 0x190, 1, 0x25B),
   (0x191, 0x191, 1, 0x192), (0x193, 0x193, 1, 0x260), (0x194, 0x194, 1, 0x263),
   (0x196, 0x196, 1, 0x269), (0x197, 0x197, 1, 0x268), (0x198, 0x198, 1, 0x199),
   (0x19C, 0x19C, 1, 0x26F), (0x19D, 0x19D, 1, 0x272), (0x19F, 0x19F, 1, 0x275),
   (0x1A0, 0x1A4, 2, 0x1A1), (0x1A6, 0x1A6, 1, 0x280), (0x1A7, 0x1A7, 1, 0x1A8),
   (0x1A9, 0x1A9, 1, 0x283), (0x1AC, 0x1AC, 1, 0x1AD), (0x1AE, 0x1AE, 1, 0x288),
   (0x1AF, 0x1AF, 1, 0x1B0), (0x1B1, 0x1B2, 1, 0x28A), (0x1B3, 0x1B5, 2, 0x1B4),
   (0x1B7, 0x1B7, 1, 0x292), (0x1B8, 0x1BC, 4, 0x1B9), (0x1C4, 0x1C4, 1, 0x1C6),
   (0x1C5, 0x1C5, 1, 0x1C6), (0x1C7, 0x1C7, 1, 0x1C9), (0x1C8, 0x1C8, 1, 0x1C9),
   (0x1CA, 0x1CA, 1, 0x1CC), (0x1CB, 0x1DB, 2, 0x1CC), (0x1DE, 0x1EE, 2, 0x1DF),
   (0x1F1, 0x1F1, 1, 0x1F3), (0x1F2, 0x1F4, 2, 0x1F3), (0x1F6, 0x1F6, 1, 0x195),
   (0x1F7, 0x1F7, 1, 0x1BF), (0x1F8, 0x21E, 2, 0x1F9), (0x220, 0x220, 1, 0x19E),
   (0x222, 0x232, 2, 0x223), (0x23A, 0x23A, 1, 0x2C65), (0x23B, 0x23B, 1, 0x23C),
   (0x23D, 0x23D, 1, 0x19A), (0x23E, 0x23E, 1, 0x2C66), (0x241, 0x241, 1, 0x242),
   (0x243, 0x243, 1, 0x180), (0x244, 0x244, 1, 0x289), (0x245, 0x245, 1, 0x28C),
   (0x246, 0x24E, 2, 0x247), (0x370, 0x372, 2, 0x371), (0x376, 0x376, 1, 0x377),
   (0x37F, 0x37F, 1, 0x3F3), (0x386, 0x386, 1, 0x3AC), (0x388, 0x38A, 1, 0x3AD),
   (0x38C, 0x38C, 1, 0x3CC), (0x38E, 0x38F, 1, 0x3CD), (0x391, 0x3A1, 1, 0x3B1),
   (0x3A4, 0x3AB, 1, 0x3C4), (0x3CF, 0x3CF, 1, 0x3D7), (0x3D8, 0x3EE, 2, 0x3D9),
   (0x3F4, 0x3F4, 1, 0x3B8), (0x3F7, 0x3F7, 1, 0x3F8), (0x3F9, 0x3F9, 1, 0x3F2),
   (0x3FA, 0x3FA, 1, 0x3FB), (0x3FD, 0x3FF, 1, 0x37B), (0x400, 0x40F, 1, 0x450),
   (0x410, 0x42F, 1, 0x430), (0x460, 0x480, 2, 0x461), (0x48A, 0x4BE, 2, 0x48B),
   (0x4C0, 0x4C0, 1, 0x4CF), (0x4C1, 0x4CD, 2, 0x4C2), (0x4D0, 0x52E, 2, 0x4D1),
   (0x531, 0x556, 1, 0x561), (0x10A0, 0x10C5, 1, 0x2D00), (0x10C7, 0x10CD, 6, 0x2D27),
   (0x13A0, 0x13EF, 1, 0xAB70), (0x13F0, 0x13F5, 1, 0x13F8), (0x1C90, 0x1CBA, 1, 0x10D0),
   (0x1CBD, 0x1CBF, 1, 0x10FD), (0x1E00, 0x1E94, 2, 0x1E01), (0x1E9E, 0x1E9E, 1, 0xDF),
   (0x1EA0, 0x1EFE, 2, 0x1EA1), (0x1F08, 0x1F0F, 1, 0x1F00), (0x1F18, 0x1F1D, 1, 0x1F10),
   (0x1F28, 0x1F2F, 1, 0x1F20), (0x1F38, 0x1F3F, 1, 0x1F30), (0x1F48, 0x1F4D, 1, 0x1F40),
   (0x1F59, 0x1F5F, 2, 0x1F51), (0x1F68, 0x1F6F, 1, 0x1F60), (0x1F88, 0x1F8F, 1, 0x1F80),
   (0x1F98, 0x1F9F, 1, 0x1F90), (0x1FA8, 0x1FAF, 1, 0x1FA0), (0x1FB8, 0x1FB9, 1, 0x1FB0),
   (0x1FBA, 0x1FBB, 1, 0x1F70), (0x1FBC, 0x1FBC, 1, 0x1FB3), (0x1FC8, 0x1FCB, 1, 0x1F72),
   (0x1FCC, 0x1FCC, 1, 0x1FC3), (0x1FD8, 0x1FD9, 1, 0x1FD0), (0x1FDA, 0x1FDB, 1, 0x1F76),
   (0x1FE8, 0x1FE9, 1, 0x1FE0), (0x1FEA, 0x1FEB, 1, 0x1F7A), (0x1FEC, 0x1FEC, 1, 0x1FE5),
   (0x1FF8, 0x1FF9, 1, 0x1F78), (0x1FFA, 0x1FFB, 1, 0x1F7C), (0x1FFC, 0x1FFC, 1, 0x1FF3),
   (0x2126, 0x2126, 1, 0x3C9), (0x212A, 0x212A, 1, 0x6B), (0x212B, 0x212B, 1, 0xE5),
   (0x2132, 0x2132, 1, 0x214E), (0x2160, 0x216F, 1, 0x2170), (0x2183, 0x2183, 1, 0x2184),
   (0x24B6, 0x24CF, 1, 0x24D0), (0x2C00, 0x2C2F, 1, 0x2C30), (0x2C60, 0x2C60, 1, 0x2C61),
   (0x2C62, 0x2C62, 1, 0x26B), (0x2C63, 0x2C63, 1, 0x1D7D), (0x2C64, 0x2C64, 1, 0x27D),
   (0x2C67, 0x2C6B, 2, 0x2C68), (0x2C6D, 0x2C6D, 1, 0x251), (0x2C6E, 0x2C6E, 1, 0x271),
   (0x2C6F, 0x2C6F, 1, 0x250), (0x2C70, 0x2C70, 1, 0x252), (0x2C72, 0x2C75, 3, 0x2C73),
   (0x2C7E, 0x2C7F, 1, 0x23F), (0x2C80, 0x2CE2, 2, 0x2C81), (0x2CEB, 0x2CED, 2, 0x2CEC),
   (0x2CF2, 0xA640, 31054, 0x2CF3), (0xA642, 0xA66C, 2, 0xA643), (0xA680, 0xA69A, 2, 0xA681),
   (0xA722, 0xA72E, 2, 0xA723), (0xA732, 0xA76E, 2, 0xA733), (0xA779, 0xA77B, 2, 0xA77A),
   (0xA77D, 0xA77D, 1, 0x1D79), (0xA77E, 0xA786, 2, 0xA77F), (0xA78B, 0xA78B, 1, 0xA78C),
   (0xA78D, 0xA78D, 1, 0x265), (0xA790, 0xA792, 2, 0xA791), (0xA796, 0xA7A8, 2, 0xA797),
   (0xA7AA, 0xA7AA, 1, 0x266), (0xA7AB, 0xA7AB, 1, 0x25C), (0xA7AC, 0xA7AC, 1, 0x261),
   (0xA7AD, 0xA7AD, 1, 0x26C), (0xA7AE, 0xA7AE, 1, 0x26A), (0xA7B0, 0xA7B0, 1, 0x29E),
   (0xA7B1, 0xA7B1, 1, 0x287), (0xA7B2, 0xA7B2, 1, 0x29D), (0xA7B3, 0xA7B3, 1, 0xAB53),
   (0xA7B4, 0xA7C2, 2, 0xA7B5), (0xA7C4, 0xA7C4, 1, 0xA794), (0xA7C5, 0xA7C5, 1, 0x282),
   (0xA7C6, 0xA7C6, 1, 0x1D8E), (0xA7C7, 0xA7C9, 2, 0xA7C8), (0xA7D0, 0xA7D6, 6, 0xA7D1),
   (0xA7D8, 0xA7F5, 29, 0xA7D9), (0xFF21, 0xFF3A, 1, 0xFF41), (0x10400, 0x10427, 1, 0x10428),
   (0x104B0, 0x104D3, 1, 0x104D8), (0x10570, 0x1057A, 1, 0x10597), (0x1057C, 0x1058A, 1, 0x105A3),
   (0x1058C, 0x10592, 1, 0x105B3), (0x10594, 0x10595, 1, 0x105BB), (0x10C80, 0x10CB2, 1, 0x10CC0),
   (0x118A0, 0x118BF, 1, 0x118C0), (0x16E40, 0x16E5F, 1, 0x16E60), (0x1E900, 0x1E921, 1, 0x1E922)]

/-- Single-character lowercase mapping on codepoints. -/
def simpleLower (n : Nat) : Nat :=
  match lowerRuns.find? (fun e =>
      decide (e.1 ≤ n) && decide (n ≤ e.2.1) && decide ((n - e.1) % e.2.2.1 = 0)) with
  | some e => e.2.2.2 + (n - e.1)
  | none => n

/-- Codepoint ranges of the characters that are cased and not
case-ignorable: the characters at which CPython's final-sigma scan stops
with a positive answer. -/
def casedRanges : List (Nat × Nat) :=
  [(0x41, 0x5A), (0x61, 0x7A), (0xAA, 0xAA),
   (0xB5, 0xB5), (0xBA, 0xBA), (0xC0, 0xD6),
   (0xD8, 0xF6), (0xF8, 0x1BA), (0x1BC, 0x1BF),
   (0x1C4, 0x293), (0x295, 0x2AF), (0x370, 0x373),
   (0x376, 0x377), (0x37B, 0x37D), (0x37F, 0x37F),
   (0x386, 0x386), (0x388, 0x38A), (0x38C, 0x38C),
   (0x38E, 0x3A1), (0x3A3, 0x3F5), (0x3F7, 0x481),
   (0x48A, 0x52F), (0x531, 0x556), (0x560, 0x588),
   (0x10A0, 0x10C5), (0x10C7, 0x10C7), (0x10CD, 0x10CD),
   (0x10D0, 0x10FA), (0x10FD, 0x10FF), (0x13A0, 0x13F5),
   (0x13F8, 0x13FD), (0x1C80, 0x1C88), (0x1C90, 0x1CBA),
   (0x1CBD, 0x1CBF), (0x1D00, 0x1D2B), (0x1D6B, 0x1D77),
   (0x1D79, 0x1D9A), (0x1E00, 0x1F15), (0x1F18, 0x1F1D),
   (0x1F20, 0x1F45), (0x1F48, 0x1F4D), (0x1F50, 0x1F57),
   (0x1F59, 0x1F59), (0x1F5B, 0x1F5B), (0x1F5D, 0x1F5D),
   (0x1F5F, 0x1F7D), (0x1F80, 0x1FB4), (0x1FB6, 0x1FBC),
   (0x1FBE, 0x1FBE), (0x1FC2, 0x1FC4), (0x1FC6, 0x1FCC),
   (0x1FD0, 0x1FD3), (0x1FD6, 0x1FDB), (0x1FE0, 0x1FEC),
   (0x1FF2, 0x1FF4), (0x1FF6, 0x1FFC), (0x2102, 0x2102),
   (0x2107, 0x2107), (0x210A, 0x2113), (0x2115, 0x2115),
   (0x2119, 0x211D), (0x2124, 0x2124), (0x2126, 0x2126),
   (0x2128, 0x2128), (0x212A, 0x212D), (0x212F, 0x2134),
   (0x2139, 0x2139), (0x213C, 0x213F), (0x2145, 0x2149),
   (0x214E, 0x214E), (0x2160, 0x217F), (0x2183, 0x2184),
   (0x24B6, 0x24E9), (0x2C00, 0x2C7B), (0x2C7E, 0x2CE4),
   (0x2CEB, 0x2CEE), (0x2CF2, 0x2CF3), (0x2D00, 0x2D25),
   (0x2D27, 0x2D27), (0x2D2D, 0x2D2D), (0xA640, 0xA66D),
   (0xA680, 0xA69B), (0xA722, 0xA76F), (0xA771, 0xA787),
   (0xA78B, 0xA78E), (0xA790, 0xA7CA), (0xA7D0, 0xA7D1),
   (0xA7D3, 0xA7D3), (0xA7D5, 0xA7D9), (0xA7F5, 0xA7F6),
   (0xA7FA, 0xA7FA), (0xAB30, 0xAB5A), (0xAB60, 0xAB68),
   (0xAB70, 0xABBF), (0xFB00, 0xFB06), (0xFB13, 0xFB17),
   (0xFF21, 0xFF3A), (0xFF41, 0xFF5A), (0x10400, 0x1044F),
   (0x104B0, 0x104D3), (0x104D8, 0x104FB), (0x10570, 0x1057A),
   (0x1057C, 0x1058A), (0x1058C, 0x10592), (0x10594, 0x10595),
   (0x10597, 0x105A1), (0x105A3, 0x105B1), (0x105B3, 0x105B9),
   (0x105BB, 0x105BC), (0x10C80, 0x10CB2), (0x10CC0, 0x10CF2),
   (0x118A0, 0x118DF), (0x16E40, 0x16E7F), (0x1D400, 0x1D454),
   (0x1D456, 0x1D49C), (0x1D49E, 0x1D49F), (0x1D4A2, 0x1D4A2),
   (0x1D4A5, 0x1D4A6), (0x1D4A9, 0x1D4AC), (0x1D4AE, 0x1D4B9),
   (0x1D4BB, 0x1D4BB), (0x1D4BD, 0x1D4C3), (0x1D4C5, 0x1D505),
   (0x1D507, 0x1D50A), (0x1D50D, 0x1D514), (0x1D516, 0x1D51C),
   (0x1D51E, 0x1D539), (0x1D53B, 0x1D53E), (0x1D540, 0x1D544),
   (0x1D546, 0x1D546), (0x1D54A, 0x1D550), (0x1D552, 0x1D6A5),
   (0x1D6A8, 0x1D6C0), (0x1D6C2, 0x1D6DA), (0x1D6DC, 0x1D6FA),
   (0x1D6FC, 0x1D714), (0x1D716, 0x1D734), (0x1D736, 0x1D74E),
   (0x1D750, 0x1D76E), (0x1D770, 0x1D788), (0x1D78A, 0x1D7A8),
   (0x1D7AA, 0x1D7C2), (0x1D7C4, 0x1D7CB), (0x1DF00, 0x1DF09),
   (0x1DF0B, 0x1DF1E), (0x1E900, 0x1E943), (0x1F130, 0x1F149),
   (0x1F150, 0x1F169), (0x1F170, 0x1F189)]

/-- Codepoint ranges of the case-ignorable characters (Unicode property
Case_Ignorable), the characters CPython's final-sigma scan skips. -/
def caseIgnorableRanges : List (Nat × Nat) :=
  [(0x27, 0x27), (0x2E, 0x2E), (0x3A, 0x3A),
   (0x5E, 0x5E), (0x60, 0x60), (0xA8, 0xA8),
   (0xAD, 0xAD), (0xAF, 0xAF), (0xB4, 0xB4),
   (0xB7, 0xB8), (0x2B0, 0x36F), (0x374, 0x375),
   (0x37A, 0x37A), (0x384, 0x385), (0x387, 0x387),
   (0x483, 0x489), (0x559, 0x559), (0x55F, 0x55F),
   (0x591, 0x5BD), (0x5BF, 0x5BF), (0x5C1, 0x5C2),
   (0x5C4, 0x5C5), (0x5C7, 0x5C7), (0x5F4, 0x5F4),
   (0x600, 0x605), (0x610, 0x61A), (0x61C, 0x61C),
   (0x640, 0x640), (0x64B, 0x65F), (0x670, 0x670),
   (0x6D6, 0x6DD), (0x6DF, 0x6E8), (0x6EA, 0x6ED),
   (0x70F, 0x70F), (0x711, 0x711), (0x730, 0x74A),
   (0x7A6, 0x7B0), (0x7EB, 0x7F5), (0x7FA, 0x7FA),
   (0x7FD, 0x7FD), (0x816, 0x82D), (0x859, 0x85B),
   (0x888, 0x888), (0x890, 0x891), (0x898, 0x89F),
   (0x8C9, 0x902), (0x93A, 0x93A), (0x93C, 0x93C),
   (0x941, 0x948), (0x94D, 0x94D), (0x951, 0x957),
   (0x962, 0x963), (0x971, 0x971), (0x981, 0x981),
   (0x9BC, 0x9BC), (0x9C1, 0x9C4), (0x9CD, 0x9CD),
   (0x9E2, 0x9E3), (0x9FE, 0x9FE), (0xA01, 0xA02),
   (0xA3C, 0xA3C), (0xA41, 0xA42), (0xA47, 0xA48),
   (0xA4B, 0xA4D), (0xA51, 0xA51), (0xA70, 0xA71),
   (0xA75, 0xA75), (0xA81, 0xA82), (0xABC, 0xABC),
   (0xAC1, 0xAC5), (0xAC7, 0xAC8), (0xACD, 0xACD),
   (0xAE2, 0xAE3), (0xAFA, 0xAFF), (0xB01, 0xB01),
   (0xB3C, 0xB3C), (0xB3F, 0xB3F), (0xB41, 0xB44),
   (0xB4D, 0xB4D), (0xB55, 0xB56), (0xB62, 0xB63),
   (0xB82, 0xB82), (0xBC0, 0xBC0), (0xBCD, 0xBCD),
   (0xC00, 0xC00), (0xC04, 0xC04), (0xC3C, 0xC3C),
   (0xC3E, 0xC40), (0xC46, 0xC48), (0xC4A, 0xC4D),
   (0xC55, 0xC56), (0xC62, 0xC63), (0xC81, 0xC81),
   (0xCBC, 0xCBC), (0xCBF, 0xCBF), (0xCC6, 0xCC6),
   (0xCCC, 0xCCD), (0xCE2, 0xCE3), (0xD00, 0xD01),
   (0xD3B, 0xD3C), (0xD41, 0xD44), (0xD4D, 0xD4D),
   (0xD62, 0xD63), (0xD81, 0xD81), (0xDCA, 0xDCA),
   (0xDD2, 0xDD4), (0xDD6, 0xDD6), (0xE31, 0xE31),
   (0xE34, 0xE3A), (0xE46, 0xE4E), (0xEB1, 0xEB1),
   (0xEB4, 0xEBC), (0xEC6, 0xEC6), (0xEC8, 0xECD),
   (0xF18, 0xF19), (0xF35, 0xF35), (0xF37, 0xF37),
   (0xF39, 0xF39), (0xF71, 0xF7E), (0xF80, 0xF84),
   (0xF86, 0xF87), (0xF8D, 0xF97), (0xF99, 0xFBC),
   (0xFC6, 0xFC6), (0x102D, 0x1030), (0x1032, 0x1037),
   (0x1039, 0x103A), (0x103D, 0x103E), (0x1058, 0x1059),
   (0x105E, 0x1060), (0x1071, 0x1074), (0x1082, 0x1082),
   (0x1085, 0x1086), (0x108D, 0x108D), (0x109D, 0x109D),
   (0x10FC, 0x10FC), (0x135D, 0x135F), (0x1712, 0x1714),
   (0x1732, 0x1733), (0x1752, 0x1753), (0x1772, 0x1773),
   (0x17B4, 0x17B5), (0x17B7, 0x17BD), (0x17C6, 0x17C6),
   (0x17C9, 0x17D3), (0x17D7, 0x17D7), (0x17DD, 0x17DD),
   (0x180B, 0x180F), (0x1843, 0x1843), (0x1885, 0x1886),
   (0x18A9, 0x18A9), (0x1920, 0x1922), (0x1927, 0x1928),
   (0x1932, 0x1932), (0x1939, 0x193B), (0x1A17, 0x1A18),
   (0x1A1B, 0x1A1B), (0x1A56, 0x1A56), (0x1A58, 0x1A5E),
   (0x1A60, 0x1A60), (0x1A62, 0x1A62), (0x1A65, 0x1A6C),
   (0x1A73, 0x1A7C), (0x1A7F, 0x1A7F), (0x1AA7, 0x1AA7),
   (0x1AB0, 0x1ACE), (0x1B00, 0x1B03), (0x1B34, 0x1B34),
   (0x1B36, 0x1B3A), (0x1B3C, 0x1B3C), (0x1B42, 0x1B42),
   (0x1B6B, 0x1B73), (0x1B80, 0x1B81), (0x1BA2, 0x1BA5),
   (0x1BA8, 0x1BA9), (0x1BAB, 0x1BAD), (0x1BE6, 0x1BE6),
   (0x1BE8, 0x1BE9), (0x1BED, 0x1BED), (0x1BEF, 0x1BF1),
   (0x1C2C, 0x1C33), (0x1C36, 0x1C37), (0x1C78, 0x1C7D),
   (0x1CD0, 0x1CD2), (0x1CD4, 0x1CE0), (0x1CE2, 0x1CE8),
   (0x1CED, 0x1CED), (0x1CF4, 0x1CF4), (0x1CF8, 0x1CF9),
   (0x1D2C, 0x1D6A), (0x1D78, 0x1D78), (0x1D9B, 0x1DFF),
   (0x1FBD, 0x1FBD), (0x1FBF, 0x1FC1), (0x1FCD, 0x1FCF),
   (0x1FDD, 0x1FDF), (0x1FED, 0x1FEF), (0x1FFD, 0x1FFE),
   (0x200B, 0x200F), (0x2018, 0x2019), (0x2024, 0x2024),
   (0x2027, 0x2027), (0x202A, 0x202E), (0x2060, 0x2064),
   (0x2066, 0x206F), (0x2071, 0x2071), (0x207F, 0x207F),
   (0x2090, 0x209C), (0x20D0, 0x20F0), (0x2C7C, 0x2C7D),
   (0x2CEF, 0x2CF1), (0x2D6F, 0x2D6F), (0x2D7F, 0x2D7F),
   (0x2DE0, 0x2DFF), (0x2E2F, 0x2E2F), (0x3005, 0x3005),
   (0x302A, 0x302D), (0x3031, 0x3035), (0x303B, 0x303B),
   (0x3099, 0x309E), (0x30FC, 0x30FE), (0xA015, 0xA015),
   (0xA4F8, 0xA4FD), (0xA60C, 0xA60C), (0xA66F, 0xA672),
   (0xA674, 0xA67D), (0xA67F, 0xA67F), (0xA69C, 0xA69F),
   (0xA6F0, 0xA6F1), (0xA700, 0xA721), (0xA770, 0xA770),
   (0xA788, 0xA78A), (0xA7F2, 0xA7F4), (0xA7F8, 0xA7F9),
   (0xA802, 0xA802), (0xA806, 0xA806), (0xA80B, 0xA80B),
   (0xA825, 0xA826), (0xA82C, 0xA82C), (0xA8C4, 0xA8C5),
   (0xA8E0, 0xA8F1), (0xA8FF, 0xA8FF), (0xA926, 0xA92D),
   (0xA947, 0xA951), (0xA980, 0xA982), (0xA9B3, 0xA9B3),
   (0xA9B6, 0xA9B9), (0xA9BC, 0xA9BD), (0xA9CF, 0xA9CF),
   (0xA9E5, 0xA9E6), (0xAA29, 0xAA2E), (0xAA31, 0xAA32),
   (0xAA35, 0xAA36), (0xAA43, 0xAA43), (0xAA4C, 0xAA4C),
   (0xAA70, 0xAA70), (0xAA7C, 0xAA7C), (0xAAB0, 0xAAB0),
   (0xAAB2, 0xAAB4), (0xAAB7, 0xAAB8), (0xAABE, 0xAABF),
   (0xAAC1, 0xAAC1), (0xAADD, 0xAADD), (0xAAEC, 0xAAED),
   (0xAAF3, 0xAAF4), (0xAAF6, 0xAAF6), (0xAB5B, 0xAB5F),
   (0xAB69, 0xAB6B), (0xABE5, 0xABE5), (0xABE8, 0xABE8),
   (0xABED, 0xABED), (0xFB1E, 0xFB1E), (0xFBB2, 0xFBC2),
   (0xFE00, 0xFE0F), (0xFE13, 0xFE13), (0xFE20, 0xFE2F),
   (0xFE52, 0xFE52), (0xFE55, 0xFE55), (0xFEFF, 0xFEFF),
   (0xFF07, 0xFF07), (0xFF0E, 0xFF0E), (0xFF1A, 0xFF1A),
   (0xFF3E, 0xFF3E), (0xFF40, 0xFF40), (0xFF70, 0xFF70),
   (0xFF9E, 0xFF9F), (0xFFE3, 0xFFE3), (0xFFF9, 0xFFFB),
   (0x101FD, 0x101FD), (0x102E0, 0x102E0), (0x10376, 0x1037A),
   (0x10780, 0x10785), (0x10787, 0x107B0), (0x107B2, 0x107BA),
   (0x10A01, 0x10A03), (0x10A05, 0x10A06), (0x10A0C, 0x10A0F),
   (0x10A38, 0x10A3A), (0x10A3F, 0x10A3F), (0x10AE5, 0x10AE6),
   (0x10D24, 0x10D27), (0x10EAB, 0x10EAC), (0x10F46, 0x10F50),
   (0x10F82, 0x10F85), (0x11001, 0x11001), (0x11038, 0x11046),
   (0x11070, 0x11070), (0x11073, 0x11074), (0x1107F, 0x11081),
   (0x110B3, 0x110B6), (0x110B9, 0x110BA), (0x110BD, 0x110BD),
   (0x110C2, 0x110C2), (0x110CD, 0x110CD), (0x11100, 0x11102),
   (0x11127, 0x1112B), (0x1112D, 0x11134), (0x11173, 0x11173),
   (0x11180, 0x11181), (0x111B6, 0x111BE), (0x111C9, 0x111CC),
   (0x111CF, 0x111CF), (0x1122F, 0x11231), (0x11234, 0x11234),
   (0x11236, 0x11237), (0x1123E, 0x1123E), (0x112DF, 0x112DF),
   (0x112E3, 0x112EA), (0x11300, 0x11301), (0x1133B, 0x1133C),
   (0x11340, 0x11340), (0x11366, 0x1136C), (0x11370, 0x11374),
   (0x11438, 0x1143F), (0x11442, 0x11444), (0x11446, 0x11446),
   (0x1145E, 0x1145E), (0x114B3, 0x114B8), (0x114BA, 0x114BA),
   (0x114BF, 0x114C0), (0x114C2, 0x114C3), (0x115B2, 0x115B5),
   (0x115BC, 0x115BD), (0x115BF, 0x115C0), (0x115DC, 0x115DD),
   (0x11633, 0x1163A), (0x1163D, 0x1163D), (0x1163F, 0x11640),
   (0x116AB, 0x116AB), (0x116AD, 0x116AD), (0x116B0, 0x116B5),
   (0x116B7, 0x116B7), (0x1171D, 0x1171F), (0x11722, 0x11725),
   (0x11727, 0x1172B), (0x1182F, 0x11837), (0x11839, 0x1183A),
   (0x1193B, 0x1193C), (0x1193E, 0x1193E), (0x11943, 0x11943),
   (0x119D4, 0x119D7), (0x119DA, 0x119DB), (0x119E0, 0x119E0),
   (0x11A01, 0x11A0A), (0x11A33, 0x11A38), (0x11A3B, 0x11A3E),
   (0x11A47, 0x11A47), (0x11A51, 0x11A56), (0x11A59, 0x11A5B),
   (0x11A8A, 0x11A96), (0x11A98, 0x11A99), (0x11C30, 0x11C36),
   (0x11C38, 0x11C3D), (0x11C3F, 0x11C3F), (0x11C92, 0x11CA7),
   (0x11CAA, 0x11CB0), (0x11CB2, 0x11CB3), (0x11CB5, 0x11CB6),
   (0x11D31, 0x11D36), (0x11D3A, 0x11D3A), (0x11D3C, 0x11D3D),
   (0x11D3F, 0x11D45), (0x11D47, 0x11D47), (0x11D90, 0x11D91),
   (0x11D95, 0x11D95), (0x11D97, 0x11D97), (0x11EF3, 0x11EF4),
   (0x13430, 0x13438), (0x16AF0, 0x16AF4), (0x16B30, 0x16B36),
   (0x16B40, 0x16B43), (0x16F4F, 0x16F4F), (0x16F8F, 0x16F9F),
   (0x16FE0, 0x16FE1), (0x16FE3, 0x16FE4), (0x1AFF0, 0x1AFF3),
   (0x1AFF5, 0x1AFFB), (0x1AFFD, 0x1AFFE), (0x1BC9D, 0x1BC9E),
   (0x1BCA0, 0x1BCA3), (0x1CF00, 0x1CF2D), (0x1CF30, 0x1CF46),
   (0x1D167, 0x1D169), (0x1D173, 0x1D182), (0x1D185, 0x1D18B),
   (0x1D1AA, 0x1D1AD), (0x1D242, 0x1D244), (0x1DA00, 0x1DA36),
   (0x1DA3B, 0x1DA6C), (0x1DA75, 0x1DA75), (0x1DA84, 0x1DA84),
   (0x1DA9B, 0x1DA9F), (0x1DAA1, 0x1DAAF), (0x1E000, 0x1E006),
   (0x1E008, 0x1E018), (0x1E01B, 0x1E021), (0x1E023, 0x1E024),
   (0x1E026, 0x1E02A), (0x1E130, 0x1E13D), (0x1E2AE, 0x1E2AE),
   (0x1E2EC, 0x1E2EF), (0x1E8D0, 0x1E8D6), (0x1E944, 0x1E94B),
   (0x1F3FB, 0x1F3FF), (0xE0001, 0xE0001), (0xE0020, 0xE007F),
   (0xE0100, 0xE01EF)]

/-- Membership of a codepoint in a list of inclusive ranges. -/
def inRanges (rs : List (Nat × Nat)) (n : Nat) : Bool :=
  rs.any (fun p => decide (p.1 ≤ n) && decide (n ≤ p.2))

/-- Case-ignorable test used by the final-sigma rule. -/
def isCaseIgnorable (c : Char) : Bool :=
  inRanges caseIgnorableRanges c.toNat

/-- Cased-and-not-ignorable test used by the final-sigma rule. -/
def isCasedNonIgnorable (c : Char) : Bool :=
  inRanges casedRanges c.toNat

/-- Backward part of the final-sigma test of `str.lower()`: walking the
characters before the sigma, nearest first, skip the case-ignorable ones;
true when the first remaining character exists and is cased. -/
def sigmaBefore : List Char → Bool
  | [] => false
  | c :: rest => if isCaseIgnorable c then sigmaBefore rest else isCasedNonIgnorable c

/-- Forward part of the final-sigma test of `str.lower()`: skip the
case-ignorable characters; true when the string ends or the first
remaining character is not cased. -/
def sigmaAfter : List Char → Bool
  | [] => true
  | c :: rest => if isCaseIgnorable c then sigmaAfter rest else !(isCasedNonIgnorable c)

/-- Lowercasing of U+03A3 (capital sigma) by `str.lower()`: the final form
U+03C2 when a cased character precedes it and no cased character follows
it (skipping case-ignorable characters on both sides), U+03C3 otherwise.
The scans read the original characters of the string. -/
def sigmaLower (rprev rest : List Char) : Char :=
  if sigmaBefore rprev && sigmaAfter rest then Char.ofNat 0x3C2 else Char.ofNat 0x3C3

/-- Lowercasing of a single non-sigma character: U+0130 expands to `i`
followed by a combining dot above, every other character maps through the
single-character table. -/
def lowerChar (c : Char) : List Char :=
  if c.toNat = 0x130 then [Char.ofNat 0x69, Char.ofNat 0x307]
  else [Char.ofNat (simpleLower c.toNat)]

/-- Worker for `pyLower`: `rprev` holds the characters already processed,
in reverse order, as context for the final-sigma rule. -/
def pyLowerGo (rprev : List Char) : List Char → List Char
  | [] => []
  | c :: rest =>
    (if c.toNat = 0x3A3 then [sigmaLower rprev rest] else lowerChar c)
      ++ pyLowerGo (c :: rprev) rest

/-- Model of Python `str.lower()`: the Unicode lowercase mapping applied
character by character, with the dotted-capital-I expansion and the
context-sensitive final-sigma rule. -/
def pyLower (s : String) : String :=
  ⟨pyLowerGo [] s.data⟩

/-- Decides whether `needle` occurs at the head of `hay`. -/
def leadsWith : List Char → List Char → Bool
  | [], _ => true
  | _ :: _, [] => false
  | a :: as, b :: bs => a = b && leadsWith as bs

/-- Model of Python's substring test `needle in hay`. -/
def containsSub (needle : List Char) : List Char → Bool
  | [] => leadsWith needle []
  | c :: t => leadsWith needle (c :: t) || containsSub needle t

/-- Model of `search_note` (src/main.py lines 450-461) on the already
joined query string: the query is stripped and lowercased; an empty result
of the stripping is a validation failure (`none`); otherwise the notes
whose lowercased title or content contain the processed query are returned
in collection iteration order. -/
def searchNote (nb : NoteBook) (rawQuery : String) : Option (List Note) :=
  let q := pyLower (pyStrip rawQuery)
  if q = "" then none
  else
    some ((values nb).filter (fun n =>
      containsSub q.data (pyLower n.title).data ||
        containsSub q.data (pyLower n.content).data))

/-- ASCII digit test for the regex class `[1-9]` (codepoints 0x31-0x39). -/
def ascii19 (c : Char) : Bool :=
  decide (49 ≤ c.toNat) && decide (c.toNat ≤ 57)

/-- Numeric value of an ASCII digit character. -/
def asciiVal (c : Char) : Nat :=
  c.toNat - 48

/-- Day alternative `3[0-1]` of the `%d` directive. -/
def dayAlt31 : List Char → Option (Nat × List Char)
  | c1 :: c2 :: rest =>
    if c1 = '3' && (c2 = '0' || c2 = '1') then some (30 + asciiVal c2, rest) else none
  | _ => none

/-- Day alternative `[1-2]\d` of the `%d` directive (the second character
may be any Unicode decimal digit). -/
def dayAlt1x : List Char → Option (Nat × List Char)
  | c1 :: c2 :: rest =>
    if (c1 = '1' || c1 = '2') && isUniDigit c2 then
      some (10 * asciiVal c1 + digitVal c2, rest)
    else none
  | _ => none

/-- Day alternative `0[1-9]` of the `%d` directive. -/
def dayAlt0x : List Char → Option (Nat × List Char)
  | c1 :: c2 :: rest => if c1 = '0' && ascii19 c2 then some (asciiVal c2, rest) else none
  | _ => none

/-- Day alternative `[1-9]` of the `%d` directive. -/
def dayAltSingle : List Char → Option (Nat × List Char)
  | c :: rest => if ascii19 c then some (asciiVal c, rest) else none
  | _ => none

/-- Day alternative `␣[1-9]` (space-padded day) of the `%d` directive. -/
def dayAltSp : List Char → Option (Nat × List Char)
  | c1 :: c2 :: rest => if c1 = ' ' && ascii19 c2 then some (asciiVal c2, rest) else none
  | _ => none

/-- The `%d` directive `3[0-1]|[1-2]\d|0[1-9]|[1-9]|␣[1-9]` of CPython's
`_strptime`.  The alternatives are tried in the regex order; no two
alternatives can both succeed and be followed by the literal dot the
format requires, so first-match equals full backtracking here. -/
def matchDay (cs : List Char) : Option (Nat × List Char) :=
  (dayAlt31 cs).orElse fun _ =>
    (dayAlt1x cs).orElse fun _ =>
      (dayAlt0x cs).orElse fun _ =>
        (dayAltSingle cs).orElse fun _ => dayAltSp cs

/-- Month alternative `1[0-2]` of the `%m` directive. -/
def monAlt1x : List Char → Option (Nat × List Char)
  | c1 :: c2 :: rest =>
    if c1 = '1' && (c2 = '0' || c2 = '1' || c2 = '2') then some (10 + asciiVal c2, rest)
    else none
  | _ => none

/-- Month alternative `0[1-9]` of the `%m` directive. -/
def monAlt0x : List Char → Option (Nat × List Char)
  | c1 :: c2 :: rest => if c1 = '0' && ascii19 c2 then some (asciiVal c2, rest) else none
  | _ => none

/-- Month alternative `[1-9]` of the `%m` directive. -/
def monAltSingle : List Char → Option (Nat × List Char)
  | c :: rest => if ascii19 c then some (asciiVal c, rest) else none
  | _ => none

/-- The `%m` directive `1[0-2]|0[1-9]|[1-9]` of CPython's `_strptime`. -/
def matchMonth (cs : List Char) : Option (Nat × List Char) :=
  (monAlt1x cs).orElse fun _ =>
    (monAlt0x cs).orElse fun _ => monAltSingle cs

/-- The `%Y` directive `\d\d\d\d`: exactly four decimal digits, combined by
`int()` positionally. -/
def matchYear : List Char → Option (Nat × List Char)
  | a :: b :: c :: d :: rest =>
    if isUniDigit a && isUniDigit b && isUniDigit c && isUniDigit d then
      some (1000 * digitVal a + 100 * digitVal b + 10 * digitVal c + digitVal d, rest)
    else none
  | _ => none

/-- Model of `Birthday.__init__` (src/main.py lines 37-42):
`datetime.strptime(value, "%d.%m.%Y")`.  The format regex is
`%d \. %m \. %Y` anchored on both sides; afterwards `datetime` validates
the calendar date (year at least 1, day within the month).  Returns the
parsed datetime (midnight) or `none` for the raised `ValueError`. -/
def parseBirthday (s : String) : Option PyDateTime :=
  match matchDay s.data with
  | none => none
  | some (d, r1) =>
    match r1 with
    | [] => none
    | c1 :: r1t =>
      if c1 = '.' then
        match matchMonth r1t with
        | none => none
        | some (m, r2) =>
          match r2 with
          | [] => none
          | c2 :: r2t =>
            if c2 = '.' then
              match matchYear r2t with
              | none => none
              | some (y, rest) =>
                match rest with
                | [] => if 1 ≤ y ∧ d ≤ daysInMonth y m then some ⟨y, m, d, 0⟩ else none
                | _ :: _ => none
            else none
      else none

/-- Complete-component check for a day field: the shapes a `%d` match can
take when the component is delimited by a dot (no alternative of `%d` can
consume the dot, so the component is exactly the text before it). -/
def compDay : List Char → Option Nat
  | [c] => if ascii19 c then some (asciiVal c) else none
  | [c1, c2] =>
    if c1 = '3' && (c2 = '0' || c2 = '1') then some (30 + asciiVal c2)
    else if (c1 = '1' || c1 = '2') && isUniDigit c2 then some (10 * asciiVal c1 + digitVal c2)
    else if c1 = '0' && ascii19 c2 then some (asciiVal c2)
    else if c1 = ' ' && ascii19 c2 then some (asciiVal c2)
    else none
  | _ => none

/-- Complete-component check for a month field. -/
def compMonth : List Char → Option Nat
  | [c] => if ascii19 c then some (asciiVal c) else none
  | [c1, c2] =>
    if c1 = '1' && (c2 = '0' || c2 = '1' || c2 = '2') then some (10 + asciiVal c2)
    else if c1 = '0' && ascii19 c2 then some (asciiVal c2)
    else none
  | _ => none

/-- Complete-component check for a year field: exactly four decimal
digits. -/
def compYear : List Char → Option Nat
  | [a, b, c, d] =>
    if isUniDigit a && isUniDigit b && isUniDigit c && isUniDigit d then
      some (1000 * digitVal a + 100 * digitVal b + 10 * digitVal c + digitVal d)
    else none
  | _ => none

/-- Declarative characterization of the strings `Birthday.__init__`
accepts: a day component, a dot, a month component, a dot, a year
component, where the components are as matched by the `%d`/`%m`/`%Y`
directives, and the triple is a possible calendar date. -/
def birthdaySpec (s : String) : Prop :=
  ∃ dcs mcs ycs d m y,
    s.data = dcs ++ '.' :: (mcs ++ '.' :: ycs) ∧
      compDay dcs = some d ∧ compMonth mcs = some m ∧ compYear ycs = some y ∧
      1 ≤ y ∧ d ≤ daysInMonth y m

/-- Strict `DD.MM.YYYY` pattern, as the specification words it: exactly a
two-digit day, a dot, a two-digit month, a dot, a four-digit year, all
ASCII digits, denoting a possible calendar date. -/
def strictDDMMYYYY (s : String) : Bool :=
  match s.data with
  | [d1, d2, '.', m1, m2, '.', y1, y2, y3, y4] =>
    [d1, d2, m1, m2, y1, y2, y3, y4].all Char.isDigit &&
      (let d := 10 * asciiVal d1 + asciiVal d2
       let m := 10 * asciiVal m1 + asciiVal m2
       let y := 1000 * asciiVal y1 + 100 * asciiVal y2 + 10 * asciiVal y3 + asciiVal y4
       decide (1 ≤ d) && decide (1 ≤ m) && decide (m ≤ 12) && decide (1 ≤ y) &&
         decide (d ≤ daysInMonth y m))
  | _ => false

lemma dlookup_dinsert_self {α : Type} (k : String) (v : α) (l : List (String × α)) :
    dlookup k (dinsert k v l) = some v := by
  induction l with
  | nil => simp [dinsert, dlookup]
  | cons p rest ih =>
    obtain ⟨k1, v1⟩ := p
    by_cases h : k1 = k
    · subst h
      simp [dinsert, dlookup]
    · simp [dinsert, dlookup, h, ih]

lemma dlookup_dinsert_ne {α : Type} (k k2 : String) (v : α) (l : List (String × α))
    (h : k2 ≠ k) : dlookup k2 (dinsert k v l) = dlookup k2 l := by
  have h3 : ¬ k = k2 := fun hh => h hh.symm
  induction l with
  | nil => simp [dinsert, dlookup, h3]
  | cons p rest ih =>
    obtain ⟨k1, v1⟩ := p
    by_cases h1 : k1 = k
    · subst h1
      simp [dinsert, dlookup, h3]
    · simp [dinsert, dlookup, h1, ih]

lemma dlookup_eq_none_iff {α : Type} (k : String) (l : List (String × α)) :
    dlookup k l = none ↔ k ∉ l.map Prod.fst := by
  induction l with
  | nil => simp [dlookup]
  | cons p rest ih =>
    obtain ⟨k1, v1⟩ := p
    by_cases h : k1 = k
    · subst h
      simp [dlookup]
    · have h3 : ¬ k = k1 := fun hh => h hh.symm
      simp [dlookup, h, h3, ih]

lemma keys_dinsert {α : Type} (k : String) (v : α) (l : List (String × α)) :
    (dinsert k v l).map Prod.fst =
      if dcontains k l then l.map Prod.fst else l.map Prod.fst ++ [k] := by
  induction l with
  | nil => simp [dinsert, dcontains, dlookup]
  | cons p rest ih =>
    obtain ⟨k1, v1⟩ := p
    by_cases h : k1 = k
    · subst h
      simp [dinsert, dcontains, dlookup]
    · have hcc : dcontains k ((k1, v1) :: rest) = dcontains k rest := by
        simp [dcontains, dlookup, h]
      rw [hcc]
      simp only [dinsert, if_neg h, List.map_cons]
      rw [ih]
      by_cases h2 : dcontains k rest
      · simp [h2]
      · simp [h2]

lemma nodup_keys_dinsert {α : Type} (k : String) (v : α) (l : List (String × α))
    (hd : (l.map Prod.fst).Nodup) : ((dinsert k v l).map Prod.fst).Nodup := by
  rw [keys_dinsert]
  by_cases h : dcontains k l
  · simpa [h] using hd
  · have hk : k ∉ l.map Prod.fst := by
      apply (dlookup_eq_none_iff k l).1
      have h2 : (dlookup k l).isSome = false := by
        simpa [dcontains] using h
      exact Option.not_isSome_iff_eq_none.1 (by simp [h2])
    simp only [h, if_false]
    exact hd.append (List.nodup_singleton k) (by simp [List.disjoint_singleton, hk])

lemma keys_dmodify {α : Type} (k : String) (f : α → α) (l : List (String × α)) :
    (dmodify k f l).map Prod.fst = l.map Prod.fst := by
  induction l with
  | nil => simp [dmodify]
  | cons p rest ih =>
    obtain ⟨k1, v1⟩ := p
    by_cases h : k1 = k
    · simp [dmodify, h]
    · simp [dmodify, h, ih]

lemma dlookup_dmodify_self {α : Type} (k : String) (f : α → α) (l : List (String × α))
    (v : α) (h : dlookup k l = some v) : dlookup k (dmodify k f l) = some (f v) := by
  induction l with
  | nil => simp [dlookup] at h
  | cons p rest ih =>
    obtain ⟨k1, v1⟩ := p
    by_cases h1 : k1 = k
    · subst h1
      simp [dlookup] at h
      simp [dmodify, dlookup, h]
    · simp [dlookup, h1] at h
      simp [dmodify, dlookup, h1, ih h]

lemma dlookup_dmodify_ne {α : Type} (k k2 : String) (f : α → α) (l : List (String × α))
    (h : k2 ≠ k) : dlookup k2 (dmodify k f l) = dlookup k2 l := by
  have h3 : ¬ k = k2 := fun hh => h hh.symm
  induction l with
  | nil => simp [dmodify]
  | cons p rest ih =>
    obtain ⟨k1, v1⟩ := p
    by_cases h1 : k1 = k
    · subst h1
      simp [dmodify, dlookup, h3]
    · simp [dmodify, dlookup, h1, ih]

/-- C4: `edit_phone(record, old, new)` behaves exactly as `remove_phone(record, old)`
followed by `add_phone(record, new)`; when `new` fails phone validation the
resulting record has all phones equal to `old` removed and `new` not added
(the old value is lost, not restored), and the validation error is
reported. -/
theorem edit_phone_remove_then_add (r : Record) (o n : String) :
    editPhone r o n = addPhone (removePhone r o) n ∧
    (Phone.validate n = false →
      (editPhone r o n).1.phones = r.phones.filter (fun p => p != o) ∧
      (editPhone r o n).2 = some "Phone number must be 10 digits.") := by
  refine ⟨rfl, fun h => ?_⟩
  simp [editPhone, addPhone, removePhone, h]

/-- Witness for `edit_phone_remove_then_add` at a concrete record: editing
`"0501234567"` to the invalid `"123"` loses the old number and adds
nothing. -/
theorem edit_phone_remove_then_add_witness :
    (editPhone ⟨⟨"Ann"⟩, none, ["0501234567", "1112223334"], none, none⟩
        "0501234567" "123").1.phones = ["1112223334"] ∧
      Phone.validate "123" = false :=
  ⟨(((edit_phone_remove_then_add ⟨⟨"Ann"⟩, none, ["0501234567", "1112223334"], none, none⟩
      "0501234567" "123").2 (by decide)).1).trans (by decide), by decide⟩

/-- C5: `add_note` with an existing title returns `AlreadyExists` and leaves
the collection (including the stored note) unchanged; with a fresh title it
inserts a note with exactly that title and content and an empty tag list,
leaving every other title's lookup unchanged. -/
theorem add_note_contract (nb : NoteBook) (t c : String) :
    (dcontains t nb = true → addNote nb t c = (nb, AddStatus.alreadyExists)) ∧
    (dcontains t nb = false →
      (addNote nb t c).2 = AddStatus.added ∧
      dlookup t (addNote nb t c).1 = some ⟨t, c, []⟩ ∧
      ∀ t2, t2 ≠ t → dlookup t2 (addNote nb t c).1 = dlookup t2 nb) := by
  constructor
  · intro h
    simp [addNote, h]
  · intro h
    refine ⟨by simp [addNote, h], by simp [addNote, h, dlookup_dinsert_self],
      fun t2 h2 => by simp [addNote, h, dlookup_dinsert_ne _ _ _ _ h2]⟩

/-- Witness for `add_note_contract`: re-adding `"Shopping"` is rejected and
keeps `"milk"`; adding a fresh title stores the new note. -/
theorem add_note_contract_witness :
    addNote [("Shopping", ⟨"Shopping", "milk", []⟩)] "Shopping" "eggs"
        = ([("Shopping", ⟨"Shopping", "milk", []⟩)], AddStatus.alreadyExists) ∧
      dlookup "Pets" (addNote [] "Pets" "cat").1 = some ⟨"Pets", "cat", []⟩ :=
  ⟨(add_note_contract [("Shopping", ⟨"Shopping", "milk", []⟩)] "Shopping" "eggs").1 (by decide),
    ((add_note_contract [] "Pets" "cat").2 (by decide)).2.1⟩

/-- C6 counterexample: nothing in `Name` or `add_record` validates the name,
so the empty string can be stored as a directory key, refuting
"every Name stored as a key of a Contact Directory is a non-empty string". -/
theorem empty_name_storable :
    ¬ (∀ (book : AddressBook) (r : Record) (k : String),
        dcontains k (addRecord book r) = true → k ≠ "") := by
  intro h
  exact h [] ⟨⟨""⟩, none, [], none, none⟩ "" (by decide) rfl

/-- C6 (amended): `add_record` upserts by the record's name: the name maps
to the new record, every other name is untouched, and key uniqueness is
preserved, so no two records share a name; names themselves are stored
without any validation. -/
theorem add_record_upsert (book : AddressBook) (r : Record) :
    dlookup r.name.value (addRecord book r) = some r ∧
    (∀ n2, n2 ≠ r.name.value → dlookup n2 (addRecord book r) = dlookup n2 book) ∧
    ((book.map Prod.fst).Nodup → ((addRecord book r).map Prod.fst).Nodup) :=
  ⟨dlookup_dinsert_self r.name.value r book,
    fun n2 h => dlookup_dinsert_ne r.name.value n2 r book h,
    fun hd => nodup_keys_dinsert r.name.value r book hd⟩

/-- Witness for `add_record_upsert` at a concrete directory: re-adding the
name `"Ann"` replaces the stored record and keeps the keys unique. -/
theorem add_record_upsert_witness :
    dlookup "Ann" (addRecord [("Ann", ⟨⟨"Ann"⟩, none, ["0000000000"], none, none⟩)]
        ⟨⟨"Ann"⟩, none, ["0501234567"], none, none⟩)
      = some ⟨⟨"Ann"⟩, none, ["0501234567"], none, none⟩ ∧
    ((addRecord [("Ann", ⟨⟨"Ann"⟩, none, ["0000000000"], none, none⟩)]
        ⟨⟨"Ann"⟩, none, ["0501234567"], none, none⟩).map Prod.fst).Nodup :=
  ⟨(add_record_upsert [("Ann", ⟨⟨"Ann"⟩, none, ["0000000000"], none, none⟩)]
      ⟨⟨"Ann"⟩, none, ["0501234567"], none, none⟩).1,
    (add_record_upsert [("Ann", ⟨⟨"Ann"⟩, none, ["0000000000"], none, none⟩)]
      ⟨⟨"Ann"⟩, none, ["0501234567"], none, none⟩).2.2 (by decide)⟩

/-- C9: `add_tag` is idempotent: applying it twice equals applying it once,
and on a duplicate-free tag list the result stays duplicate-free with
exactly one occurrence of the added tag. -/
theorem add_tag_idem (n : Note) (t : String) :
    addTag (addTag n t) t = addTag n t ∧
    (n.tags.Nodup →
      (addTag n t).tags.Nodup ∧ (addTag (addTag n t) t).tags.count t = 1) := by
  by_cases h : t ∈ n.tags
  · refine ⟨by simp [addTag, h], fun hd => ⟨by simpa [addTag, h] using hd, ?_⟩⟩
    simp [addTag, h]
    exact List.count_eq_one_of_mem hd h
  · have h2 : t ∈ (addTag n t).tags := by simp [addTag, h]
    refine ⟨by simp [addTag, h, h2], fun hd => ⟨?_, ?_⟩⟩
    · simp only [addTag, if_neg h]
      exact hd.append (List.nodup_singleton t) (by simp [List.disjoint_singleton, h])
    · simp [addTag, h, h2, List.count_append]
      simp [List.count_eq_zero.2 h]

/-- Witness for `add_tag_idem` at a concrete note with duplicate-free
tags. -/
theorem add_tag_idem_witness :
    (addTag (addTag ⟨"T", "C", ["a"]⟩ "x") "x").tags.count "x" = 1 :=
  ((add_tag_idem ⟨"T", "C", ["a"]⟩ "x").2 (by decide)).2

/-- C10: `edit_note_content` changes at most the content of the note stored
under the given title: the key sequence is untouched, that note keeps its
title and tags, every other title's lookup is unchanged, and a missing
title leaves the collection entirely unchanged. -/
theorem edit_note_content_frame (nb : NoteBook) (t c : String) :
    (dcontains t nb = false → editNoteContent nb t c = nb) ∧
    (editNoteContent nb t c).map Prod.fst = nb.map Prod.fst ∧
    (∀ n, dlookup t nb = some n →
      dlookup t (editNoteContent nb t c) = some ⟨n.title, c, n.tags⟩) ∧
    (∀ t2, t2 ≠ t → dlookup t2 (editNoteContent nb t c) = dlookup t2 nb) := by
  refine ⟨fun h => by simp [editNoteContent, h], ?_, ?_, ?_⟩
  · by_cases h : dcontains t nb
    · simp [editNoteContent, h, keys_dmodify]
    · simp [editNoteContent, h]
  · intro n hn
    have hc : dcontains t nb = true := by simp [dcontains, hn]
    simp only [editNoteContent, hc, if_true]
    exact dlookup_dmodify_self t (fun x => { x with content := c }) nb n hn
  · intro t2 h2
    by_cases hc : dcontains t nb
    · simp [editNoteContent, hc, dlookup_dmodify_ne t t2 _ nb h2]
    · simp [editNoteContent, hc]

/-- Witness for `edit_note_content_frame` at a concrete collection: editing
`"A"` rewrites only its content, keeping its tags and the note `"B"`. -/
theorem edit_note_content_frame_witness :
    dlookup "A" (editNoteContent [("A", ⟨"A", "milk", ["todo"]⟩), ("B", ⟨"B", "eggs", []⟩)]
        "A" "bread") = some ⟨"A", "bread", ["todo"]⟩ ∧
    dlookup "B" (editNoteContent [("A", ⟨"A", "milk", ["todo"]⟩), ("B", ⟨"B", "eggs", []⟩)]
        "A" "bread") = dlookup "B" [("A", ⟨"A", "milk", ["todo"]⟩), ("B", ⟨"B", "eggs", []⟩)] :=
  ⟨(edit_note_content_frame [("A", ⟨"A", "milk", ["todo"]⟩), ("B", ⟨"B", "eggs", []⟩)]
      "A" "bread").2.2.1 ⟨"A", "milk", ["todo"]⟩ (by decide),
    (edit_note_content_frame [("A", ⟨"A", "milk", ["todo"]⟩), ("B", ⟨"B", "eggs", []⟩)]
      "A" "bread").2.2.2 "B" (by decide)⟩

/-- C1 evidence: `get_upcoming_birthdays` compares full datetimes, and
`datetime.today()` carries the wall-clock time while a stored birthday is
at midnight.  With today = 2025-06-10 12:00:00 a record whose birthday
occurrence is exactly today's date is rolled to next year and excluded
from a 7-day window; the same query run at exactly midnight includes it. -/
theorem upcoming_birthdays_same_day_boundary :
    getUpcomingBirthdays [("Ann", ⟨⟨"Ann"⟩, some ⟨1990, 6, 10, 0⟩, [], none, none⟩)]
        ⟨2025, 6, 10, 43200000000⟩ 7 = Except.ok [] ∧
    getUpcomingBirthdays [("Ann", ⟨⟨"Ann"⟩, some ⟨1990, 6, 10, 0⟩, [], none, none⟩)]
        ⟨2025, 6, 10, 0⟩ 7 = Except.ok ["Ann"] :=
  ⟨rfl, rfl⟩

/-- C2 evidence: `edit_note_title` performs no collision check, so renaming
`"A"` to the already-present title `"B"` silently overwrites the note
stored under `"B"` (whose content `"eggs"` is destroyed) instead of being
rejected with an already-exists status and leaving the collection
unchanged. -/
theorem edit_note_title_collision_overwrites :
    editNoteTitle [("A", ⟨"A", "milk", []⟩), ("B", ⟨"B", "eggs", []⟩)] "A" "B"
        = [("B", ⟨"B", "milk", []⟩)] ∧
    dlookup "B" ([("A", ⟨"A", "milk", []⟩), ("B", ⟨"B", "eggs", []⟩)] : NoteBook)
        = some ⟨"B", "eggs", []⟩ :=
  ⟨rfl, rfl⟩

/-- C7 counterexample: `Phone.validate` uses the regex `\d{10}` on a `str`,
and `\d` matches any Unicode decimal digit, so a string of ten
Arabic-Indic digits validates although it contains no ASCII digit. -/
theorem validate_phone_accepts_nonascii_digits :
    Phone.validate "٠١٢٣٤٥٦٧٨٩" = true ∧ "٠١٢٣٤٥٦٧٨٩".data.all Char.isDigit = false := by
  decide

lemma matchDigits_iff (n : Nat) (cs : List Char) :
    matchDigits n cs = true ↔ cs.length = n ∧ ∀ c ∈ cs, isUniDigit c = true := by
  induction cs generalizing n with
  | nil => cases n <;> simp [matchDigits]
  | cons c rest ih =>
    cases n with
    | zero => simp [matchDigits]
    | succ m =>
      constructor
      · intro h
        have h1 : isUniDigit c = true ∧ matchDigits m rest = true := by
          simpa [matchDigits] using h
        obtain ⟨hl, hall⟩ := (ih m).1 h1.2
        refine ⟨by simp [hl], ?_⟩
        intro x hx
        rcases List.mem_cons.1 hx with h5 | h5
        · exact h5 ▸ h1.1
        · exact hall x h5
      · intro h
        obtain ⟨hl, hall⟩ := h
        have h1 : rest.length = m := by simpa using hl
        have h2 : matchDigits m rest = true :=
          (ih m).2 ⟨h1, fun x hx => hall x (List.mem_cons_of_mem c hx)⟩
        simp [matchDigits, hall c (List.mem_cons_self c rest), h2]

/-- C7 (amended): `Phone.validate` is true exactly on strings of exactly
ten Unicode decimal digits (the regex `\d` class); any string of another
length or containing a non-digit yields false. -/
theorem validate_phone_characterization :
    ∀ s : String, Phone.validate s = true ↔
      (s.length = 10 ∧ ∀ c ∈ s.data, isUniDigit c = true) :=
  fun s => matchDigits_iff 10 s.data

/-- C8 counterexample: the query is stripped before use, so the non-empty
query `" "` is rejected as a blank search instead of returning the notes
containing a space, although the note `"a b"` does contain it. -/
theorem search_note_blank_query_fails :
    searchNote [("a b", ⟨"a b", "", []⟩)] " " = none ∧ (" " : String) ≠ "" ∧
    containsSub (pyLower " ").data (pyLower "a b").data = true := by
  decide

lemma leadsWith_iff (needle hay : List Char) :
    leadsWith needle hay = true ↔ ∃ post, hay = needle ++ post := by
  induction needle generalizing hay with
  | nil => simp [leadsWith]
  | cons a as ih =>
    cases hay with
    | nil => simp [leadsWith]
    | cons b bs =>
      simp only [leadsWith, Bool.and_eq_true, decide_eq_true_eq, ih, List.cons_append,
        List.cons.injEq]
      constructor
      · rintro ⟨rfl, post, rfl⟩
        exact ⟨post, rfl, rfl⟩
      · rintro ⟨post, rfl, rfl⟩
        exact ⟨rfl, post, rfl⟩

lemma containsSub_iff (needle hay : List Char) :
    containsSub needle hay = true ↔ ∃ pre post, hay = pre ++ needle ++ post := by
  induction hay with
  | nil =>
    simp only [containsSub, leadsWith_iff]
    constructor
    · rintro ⟨post, h⟩
      exact ⟨[], post, by simpa using h⟩
    · rintro ⟨pre, post, h⟩
      have h6 : pre = [] ∧ needle = [] ∧ post = [] := by simpa using h.symm
      exact ⟨[], by simp [h6.2.1]⟩
  | cons c t ih =>
    simp only [containsSub, Bool.or_eq_true, leadsWith_iff, ih]
    constructor
    · rintro (⟨post, h⟩ | ⟨pre, post, rfl⟩)
      · exact ⟨[], post, by simpa using h⟩
      · exact ⟨c :: pre, post, rfl⟩
    · rintro ⟨pre, post, h⟩
      cases pre with
      | nil => exact Or.inl ⟨post, by simpa using h⟩
      | cons p ps =>
        rcases List.cons.injEq .. ▸ h with ⟨rfl, h2⟩
        exact Or.inr ⟨ps, post, by simpa using h2⟩

lemma lowerChar_ne_nil (c : Char) : lowerChar c ≠ [] := by
  unfold lowerChar
  split <;> simp

lemma pyLower_eq_empty_iff (s : String) : pyLower s = "" ↔ s = "" := by
  constructor
  · intro h
    have h2 : pyLowerGo [] s.data = [] := by
      have h2a : (pyLower s).data = [] := by rw [h]
      exact h2a
    cases hd : s.data with
    | nil =>
      cases s
      exact congrArg String.mk hd
    | cons c rest =>
      exfalso
      rw [hd] at h2
      simp only [pyLowerGo] at h2
      rcases List.append_eq_nil.1 h2 with ⟨h4, h5⟩
      by_cases hs : c.toNat = 0x3A3
      · rw [if_pos hs] at h4
        exact List.cons_ne_nil _ _ h4
      · rw [if_neg hs] at h4
        exact lowerChar_ne_nil c h4
  · intro h
    rw [h]
    rfl

/-- C8 (amended): `search_note` strips and lowercases the query first; a
query that is blank after stripping fails with the empty-query validation
error, and otherwise the result is exactly the notes, in collection
iteration order, whose lowercased title or content contains the processed
query, where containment is genuine substring occurrence. -/
theorem search_note_contract (nb : NoteBook) (q : String) :
    (searchNote nb q = none ↔ pyStrip q = "") ∧
    (pyStrip q ≠ "" →
      searchNote nb q = some ((values nb).filter (fun n =>
        containsSub (pyLower (pyStrip q)).data (pyLower n.title).data ||
          containsSub (pyLower (pyStrip q)).data (pyLower n.content).data))) ∧
    (∀ needle hay : List Char,
      containsSub needle hay = true ↔ ∃ pre post, hay = pre ++ needle ++ post) := by
  refine ⟨?_, ?_, containsSub_iff⟩
  · by_cases h : pyLower (pyStrip q) = ""
    · have h3 : pyStrip q = "" := (pyLower_eq_empty_iff _).1 h
      have h4 : pyLower "" = "" := rfl
      simp [searchNote, h3, h4]
    · have h2 : ¬ pyStrip q = "" := fun hh => h ((pyLower_eq_empty_iff _).2 hh)
      simp [searchNote, h, h2]
  · intro h
    have h2 : ¬ pyLower (pyStrip q) = "" := fun hh => h ((pyLower_eq_empty_iff _).1 hh)
    simp [searchNote, h2]

set_option maxRecDepth 8192 in
/-- Witness for `search_note_contract` at concrete collections and
queries: the query `"MILK"` is lowercased and matches two of the three
notes in collection order; the Cyrillic query `"ПРИВЕТ"` matches the note
`"Привет"` case-insensitively; the Greek query `"οδος"` matches the note
`"ΟΔΟΣ"`, whose trailing capital sigma lowercases to the final form. -/
theorem search_note_contract_witness :
    searchNote [("Shopping", ⟨"Shopping", "Milk", []⟩), ("Work", ⟨"Work", "milky way", []⟩),
          ("X", ⟨"X", "nothing", []⟩)] "MILK"
        = some [⟨"Shopping", "Milk", []⟩, ⟨"Work", "milky way", []⟩] ∧
    searchNote [("Привет", ⟨"Привет", "мир", []⟩)] "ПРИВЕТ"
        = some [⟨"Привет", "мир", []⟩] ∧
    searchNote [("ΟΔΟΣ", ⟨"ΟΔΟΣ", "", []⟩)] "οδος" = some [⟨"ΟΔΟΣ", "", []⟩] :=
  ⟨((search_note_contract [("Shopping", ⟨"Shopping", "Milk", []⟩),
      ("Work", ⟨"Work", "milky way", []⟩), ("X", ⟨"X", "nothing", []⟩)] "MILK").2.1
      (by decide)).trans (by decide),
    ((search_note_contract [("Привет", ⟨"Привет", "мир", []⟩)] "ПРИВЕТ").2.1
      (by decide)).trans (by decide),
    ((search_note_contract [("ΟΔΟΣ", ⟨"ΟΔΟΣ", "", []⟩)] "οδος").2.1
      (by decide)).trans (by decide)⟩

/-- C3 counterexample: `strptime` with format `%d.%m.%Y` also accepts
unpadded day and month, so `"1.1.2024"` parses although it does not match
the strict `DD.MM.YYYY` pattern. -/
theorem parse_birthday_accepts_unpadded :
    (parseBirthday "1.1.2024").isSome = true ∧ strictDDMMYYYY "1.1.2024" = false := by
  decide

lemma char_eq_of_toNat_eq {a b : Char} (h : a.toNat = b.toNat) : a = b :=
  Char.ext (UInt32.ext (by simpa using h))

lemma ascii19_enum {c : Char} (h : ascii19 c = true) :
    c = '1' ∨ c = '2' ∨ c = '3' ∨ c = '4' ∨ c = '5' ∨ c = '6' ∨ c = '7' ∨ c = '8' ∨ c = '9' := by
  have h1 : 49 ≤ c.toNat ∧ c.toNat ≤ 57 := by simpa [ascii19] using h
  obtain ⟨ha, hb⟩ := h1
  interval_cases h3 : c.toNat
  · exact Or.inl (char_eq_of_toNat_eq h3)
  · exact Or.inr (Or.inl (char_eq_of_toNat_eq h3))
  · exact Or.inr (Or.inr (Or.inl (char_eq_of_toNat_eq h3)))
  · exact Or.inr (Or.inr (Or.inr (Or.inl (char_eq_of_toNat_eq h3))))
  · exact Or.inr (Or.inr (Or.inr (Or.inr (Or.inl (char_eq_of_toNat_eq h3)))))
  · exact Or.inr (Or.inr (Or.inr (Or.inr (Or.inr (Or.inl (char_eq_of_toNat_eq h3))))))
  · exact Or.inr (Or.inr (Or.inr (Or.inr (Or.inr (Or.inr (Or.inl (char_eq_of_toNat_eq h3)))))))
  · exact Or.inr (Or.inr (Or.inr (Or.inr (Or.inr (Or.inr (Or.inr (Or.inl
      (char_eq_of_toNat_eq h3))))))))
  · exact Or.inr (Or.inr (Or.inr (Or.inr (Or.inr (Or.inr (Or.inr (Or.inr
      (char_eq_of_toNat_eq h3))))))))

lemma dayAlt31_sound {cs : List Char} {d : Nat} {rest : List Char}
    (h : dayAlt31 cs = some (d, rest)) :
    ∃ c2, cs = '3' :: c2 :: rest ∧ (c2 = '0' ∨ c2 = '1') ∧ d = 30 + asciiVal c2 := by
  rcases cs with _ | ⟨c1, _ | ⟨c2, r⟩⟩
  · exact Option.noConfusion h
  · exact Option.noConfusion h
  · simp only [dayAlt31] at h
    split at h
    case isTrue hcond =>
      simp only [Option.some.injEq, Prod.mk.injEq] at h
      obtain ⟨h5, h6⟩ := h
      obtain ⟨hc1, hc2⟩ : c1 = '3' ∧ (c2 = '0' ∨ c2 = '1') := by simpa using hcond
      subst hc1
      subst h6
      exact ⟨c2, rfl, hc2, h5.symm⟩
    case isFalse hcond => exact Option.noConfusion h

lemma dayAlt1x_sound {cs : List Char} {d : Nat} {rest : List Char}
    (h : dayAlt1x cs = some (d, rest)) :
    ∃ c1 c2, cs = c1 :: c2 :: rest ∧ (c1 = '1' ∨ c1 = '2') ∧ isUniDigit c2 = true ∧
      d = 10 * asciiVal c1 + digitVal c2 := by
  rcases cs with _ | ⟨c1, _ | ⟨c2, r⟩⟩
  · exact Option.noConfusion h
  · exact Option.noConfusion h
  · simp only [dayAlt1x] at h
    split at h
    case isTrue hcond =>
      simp only [Option.some.injEq, Prod.mk.injEq] at h
      obtain ⟨h5, h6⟩ := h
      obtain ⟨hc1, hc2⟩ : (c1 = '1' ∨ c1 = '2') ∧ isUniDigit c2 = true := by simpa using hcond
      subst h6
      exact ⟨c1, c2, rfl, hc1, hc2, h5.symm⟩
    case isFalse hcond => exact Option.noConfusion h

lemma dayAlt0x_sound {cs : List Char} {d : Nat} {rest : List Char}
    (h : dayAlt0x cs = some (d, rest)) :
    ∃ c2, cs = '0' :: c2 :: rest ∧ ascii19 c2 = true ∧ d = asciiVal c2 := by
  rcases cs with _ | ⟨c1, _ | ⟨c2, r⟩⟩
  · exact Option.noConfusion h
  · exact Option.noConfusion h
  · simp only [dayAlt0x] at h
    split at h
    case isTrue hcond =>
      simp only [Option.some.injEq, Prod.mk.injEq] at h
      obtain ⟨h5, h6⟩ := h
      obtain ⟨hc1, hc2⟩ : c1 = '0' ∧ ascii19 c2 = true := by simpa using hcond
      subst hc1
      subst h6
      exact ⟨c2, rfl, hc2, h5.symm⟩
    case isFalse hcond => exact Option.noConfusion h

lemma dayAltSingle_sound {cs : List Char} {d : Nat} {rest : List Char}
    (h : dayAltSingle cs = some (d, rest)) :
    ∃ c, cs = c :: rest ∧ ascii19 c = true ∧ d = asciiVal c := by
  rcases cs with _ | ⟨c, r⟩
  · exact Option.noConfusion h
  · simp only [dayAltSingle] at h
    split at h
    case isTrue hcond =>
      simp only [Option.some.injEq, Prod.mk.injEq] at h
      obtain ⟨h5, h6⟩ := h
      subst h6
      exact ⟨c, rfl, hcond, h5.symm⟩
    case isFalse hcond => exact Option.noConfusion h

lemma dayAltSp_sound {cs : List Char} {d : Nat} {rest : List Char}
    (h : dayAltSp cs = some (d, rest)) :
    ∃ c2, cs = ' ' :: c2 :: rest ∧ ascii19 c2 = true ∧ d = asciiVal c2 := by
  rcases cs with _ | ⟨c1, _ | ⟨c2, r⟩⟩
  · exact Option.noConfusion h
  · exact Option.noConfusion h
  · simp only [dayAltSp] at h
    split at h
    case isTrue hcond =>
      simp only [Option.some.injEq, Prod.mk.injEq] at h
      obtain ⟨h5, h6⟩ := h
      obtain ⟨hc1, hc2⟩ : c1 = ' ' ∧ ascii19 c2 = true := by simpa using hcond
      subst hc1
      subst h6
      exact ⟨c2, rfl, hc2, h5.symm⟩
    case isFalse hcond => exact Option.noConfusion h

lemma monAlt1x_sound {cs : List Char} {m : Nat} {rest : List Char}
    (h : monAlt1x cs = some (m, rest)) :
    ∃ c2, cs = '1' :: c2 :: rest ∧ (c2 = '0' ∨ c2 = '1' ∨ c2 = '2') ∧ m = 10 + asciiVal c2 := by
  rcases cs with _ | ⟨c1, _ | ⟨c2, r⟩⟩
  · exact Option.noConfusion h
  · exact Option.noConfusion h
  · simp only [monAlt1x] at h
    split at h
    case isTrue hcond =>
      simp only [Option.some.injEq, Prod.mk.injEq] at h
      obtain ⟨h5, h6⟩ := h
      obtain ⟨hc1, hc2⟩ : c1 = '1' ∧ (c2 = '0' ∨ c2 = '1' ∨ c2 = '2') := by
        simpa [or_assoc] using hcond
      subst hc1
      subst h6
      exact ⟨c2, rfl, hc2, h5.symm⟩
    case isFalse hcond => exact Option.noConfusion h

lemma monAlt0x_sound {cs : List Char} {m : Nat} {rest : List Char}
    (h : monAlt0x cs = some (m, rest)) :
    ∃ c2, cs = '0' :: c2 :: rest ∧ ascii19 c2 = true ∧ m = asciiVal c2 := by
  rcases cs with _ | ⟨c1, _ | ⟨c2, r⟩⟩
  · exact Option.noConfusion h
  · exact Option.noConfusion h
  · simp only [monAlt0x] at h
    split at h
    case isTrue hcond =>
      simp only [Option.some.injEq, Prod.mk.injEq] at h
      obtain ⟨h5, h6⟩ := h
      obtain ⟨hc1, hc2⟩ : c1 = '0' ∧ ascii19 c2 = true := by simpa using hcond
      subst hc1
      subst h6
      exact ⟨c2, rfl, hc2, h5.symm⟩
    case isFalse hcond => exact Option.noConfusion h

lemma monAltSingle_sound {cs : List Char} {m : Nat} {rest : List Char}
    (h : monAltSingle cs = some (m, rest)) :
    ∃ c, cs = c :: rest ∧ ascii19 c = true ∧ m = asciiVal c := by
  rcases cs with _ | ⟨c, r⟩
  · exact Option.noConfusion h
  · simp only [monAltSingle] at h
    split at h
    case isTrue hcond =>
      simp only [Option.some.injEq, Prod.mk.injEq] at h
      obtain ⟨h5, h6⟩ := h
      subst h6
      exact ⟨c, rfl, hcond, h5.symm⟩
    case isFalse hcond => exact Option.noConfusion h

lemma matchYear_sound {cs : List Char} {y : Nat} {rest : List Char}
    (h : matchYear cs = some (y, rest)) :
    ∃ a b c d, cs = a :: b :: c :: d :: rest ∧ compYear [a, b, c, d] = some y := by
  rcases cs with _ | ⟨a, _ | ⟨b, _ | ⟨c, _ | ⟨d, r⟩⟩⟩⟩
  · exact Option.noConfusion h
  · exact Option.noConfusion h
  · exact Option.noConfusion h
  · exact Option.noConfusion h
  · simp only [matchYear] at h
    split at h
    case isTrue hcond =>
      simp only [Option.some.injEq, Prod.mk.injEq] at h
      obtain ⟨h5, h6⟩ := h
      subst h6
      exact ⟨a, b, c, d, rfl, by simp [compYear, hcond, h5]⟩
    case isFalse hcond => exact Option.noConfusion h

/-- A successful `%d` match consumes a component that the complete-component
checker accepts with the same value. -/
lemma matchDay_sound {cs : List Char} {d : Nat} {rest : List Char}
    (h : matchDay cs = some (d, rest)) :
    ∃ pre, cs = pre ++ rest ∧ compDay pre = some d := by
  simp only [matchDay] at h
  cases h31 : dayAlt31 cs with
  | some p =>
    rw [h31] at h
    simp only [Option.orElse] at h
    obtain rfl : p = (d, rest) := by simpa using h
    obtain ⟨c2, rfl, hc2, rfl⟩ := dayAlt31_sound h31
    refine ⟨['3', c2], rfl, ?_⟩
    rcases hc2 with rfl | rfl <;> simp [compDay]
  | none =>
    rw [h31] at h
    simp only [Option.orElse] at h
    cases h1x : dayAlt1x cs with
    | some p =>
      rw [h1x] at h
      simp only [Option.orElse] at h
      obtain rfl : p = (d, rest) := by simpa using h
      obtain ⟨c1, c2, rfl, hc1, hc2, rfl⟩ := dayAlt1x_sound h1x
      refine ⟨[c1, c2], rfl, ?_⟩
      rcases hc1 with rfl | rfl <;> simp [compDay, hc2]
    | none =>
      rw [h1x] at h
      simp only [Option.orElse] at h
      cases h0x : dayAlt0x cs with
      | some p =>
        rw [h0x] at h
        simp only [Option.orElse] at h
        obtain rfl : p = (d, rest) := by simpa using h
        obtain ⟨c2, rfl, hc2, rfl⟩ := dayAlt0x_sound h0x
        refine ⟨['0', c2], rfl, ?_⟩
        simp [compDay, hc2]
      | none =>
        rw [h0x] at h
        simp only [Option.orElse] at h
        cases hsg : dayAltSingle cs with
        | some p =>
          rw [hsg] at h
          simp only [Option.orElse] at h
          obtain rfl : p = (d, rest) := by simpa using h
          obtain ⟨c, rfl, hc, rfl⟩ := dayAltSingle_sound hsg
          exact ⟨[c], rfl, by simp [compDay, hc]⟩
        | none =>
          rw [hsg] at h
          simp only [Option.orElse] at h
          obtain ⟨c2, rfl, hc2, rfl⟩ := dayAltSp_sound h
          refine ⟨[' ', c2], rfl, ?_⟩
          simp [compDay, hc2]

/-- A successful `%m` match consumes a component that the complete-component
checker accepts with the same value. -/
lemma matchMonth_sound {cs : List Char} {m : Nat} {rest : List Char}
    (h : matchMonth cs = some (m, rest)) :
    ∃ pre, cs = pre ++ rest ∧ compMonth pre = some m := by
  simp only [matchMonth] at h
  cases h1x : monAlt1x cs with
  | some p =>
    rw [h1x] at h
    simp only [Option.orElse] at h
    obtain rfl : p = (m, rest) := by simpa using h
    obtain ⟨c2, rfl, hc2, rfl⟩ := monAlt1x_sound h1x
    refine ⟨['1', c2], rfl, ?_⟩
    rcases hc2 with rfl | rfl | rfl <;> simp [compMonth]
  | none =>
    rw [h1x] at h
    simp only [Option.orElse] at h
    cases h0x : monAlt0x cs with
    | some p =>
      rw [h0x] at h
      simp only [Option.orElse] at h
      obtain rfl : p = (m, rest) := by simpa using h
      obtain ⟨c2, rfl, hc2, rfl⟩ := monAlt0x_sound h0x
      refine ⟨['0', c2], rfl, ?_⟩
      simp [compMonth, hc2]
    | none =>
      rw [h0x] at h
      simp only [Option.orElse] at h
      obtain ⟨c, rfl, hc, rfl⟩ := monAltSingle_sound h
      exact ⟨[c], rfl, by simp [compMonth, hc]⟩

/-- A component the complete-component day checker accepts is matched
exactly, with the delimiting dot left over. -/
lemma matchDay_complete {pre : List Char} {d : Nat} (t : List Char)
    (h : compDay pre = some d) : matchDay (pre ++ '.' :: t) = some (d, '.' :: t) := by
  rcases pre with _ | ⟨c1, _ | ⟨c2, _ | ⟨c3, r⟩⟩⟩
  · exact Option.noConfusion h
  · simp only [compDay] at h
    split at h
    case isTrue hcond =>
      obtain rfl : asciiVal c1 = d := by simpa using h
      rcases ascii19_enum hcond with rfl | rfl | rfl | rfl | rfl | rfl | rfl | rfl | rfl <;> rfl
    case isFalse hcond => exact Option.noConfusion h
  · simp only [compDay] at h
    split at h
    case isTrue hcond =>
      obtain rfl : 30 + asciiVal c2 = d := by simpa using h
      obtain ⟨hc1, hc2⟩ : c1 = '3' ∧ (c2 = '0' ∨ c2 = '1') := by simpa using hcond
      subst hc1
      rcases hc2 with rfl | rfl <;> rfl
    case isFalse hn1 =>
      split at h
      case isTrue hcond =>
        obtain rfl : 10 * asciiVal c1 + digitVal c2 = d := by simpa using h
        obtain ⟨hc1, hc2⟩ : (c1 = '1' ∨ c1 = '2') ∧ isUniDigit c2 = true := by simpa using hcond
        rcases hc1 with rfl | rfl
        · have e31 : dayAlt31 ('1' :: c2 :: '.' :: t) = none := by simp [dayAlt31]
          have e1x : dayAlt1x ('1' :: c2 :: '.' :: t)
              = some (10 * asciiVal '1' + digitVal c2, '.' :: t) := by
            simp [dayAlt1x, hc2]
          simp [matchDay, e31, e1x, Option.orElse]
        · have e31 : dayAlt31 ('2' :: c2 :: '.' :: t) = none := by simp [dayAlt31]
          have e1x : dayAlt1x ('2' :: c2 :: '.' :: t)
              = some (10 * asciiVal '2' + digitVal c2, '.' :: t) := by
            simp [dayAlt1x, hc2]
          simp [matchDay, e31, e1x, Option.orElse]
      case isFalse hn2 =>
        split at h
        case isTrue hcond =>
          obtain rfl : asciiVal c2 = d := by simpa using h
          obtain ⟨hc1, hc2⟩ : c1 = '0' ∧ ascii19 c2 = true := by simpa using hcond
          subst hc1
          rcases ascii19_enum hc2 with rfl | rfl | rfl | rfl | rfl | rfl | rfl | rfl | rfl <;> rfl
        case isFalse hn3 =>
          split at h
          case isTrue hcond =>
            obtain rfl : asciiVal c2 = d := by simpa using h
            obtain ⟨hc1, hc2⟩ : c1 = ' ' ∧ ascii19 c2 = true := by simpa using hcond
            subst hc1
            rcases ascii19_enum hc2 with rfl | rfl | rfl | rfl | rfl | rfl | rfl | rfl | rfl <;>
              rfl
          case isFalse hn4 => exact Option.noConfusion h
  · exact Option.noConfusion h

/-- A component the complete-component month checker accepts is matched
exactly, with the delimiting dot left over. -/
lemma matchMonth_complete {pre : List Char} {m : Nat} (t : List Char)
    (h : compMonth pre = some m) : matchMonth (pre ++ '.' :: t) = some (m, '.' :: t) := by
  rcases pre with _ | ⟨c1, _ | ⟨c2, _ | ⟨c3, r⟩⟩⟩
  · exact Option.noConfusion h
  · simp only [compMonth] at h
    split at h
    case isTrue hcond =>
      obtain rfl : asciiVal c1 = m := by simpa using h
      rcases ascii19_enum hcond with rfl | rfl | rfl | rfl | rfl | rfl | rfl | rfl | rfl <;> rfl
    case isFalse hcond => exact Option.noConfusion h
  · simp only [compMonth] at h
    split at h
    case isTrue hcond =>
      obtain rfl : 10 + asciiVal c2 = m := by simpa using h
      obtain ⟨hc1, hc2⟩ : c1 = '1' ∧ (c2 = '0' ∨ c2 = '1' ∨ c2 = '2') := by
        simpa [or_assoc] using hcond
      subst hc1
      rcases hc2 with rfl | rfl | rfl <;> rfl
    case isFalse hn1 =>
      split at h
      case isTrue hcond =>
        obtain rfl : asciiVal c2 = m := by simpa using h
        obtain ⟨hc1, hc2⟩ : c1 = '0' ∧ ascii19 c2 = true := by simpa using hcond
        subst hc1
        rcases ascii19_enum hc2 with rfl | rfl | rfl | rfl | rfl | rfl | rfl | rfl | rfl <;> rfl
      case isFalse hn2 => exact Option.noConfusion h
  · exact Option.noConfusion h

/-- A component the complete-component year checker accepts is matched
exactly, consuming the whole remainder. -/
lemma matchYear_complete {pre : List Char} {y : Nat}
    (h : compYear pre = some y) : matchYear pre = some (y, []) := by
  rcases pre with _ | ⟨a, _ | ⟨b, _ | ⟨c, _ | ⟨d, _ | ⟨e, r⟩⟩⟩⟩⟩
  · exact Option.noConfusion h
  · exact Option.noConfusion h
  · exact Option.noConfusion h
  · exact Option.noConfusion h
  · simp only [compYear] at h
    split at h
    case isTrue hcond =>
      obtain rfl : 1000 * digitVal a + 100 * digitVal b + 10 * digitVal c + digitVal d = y := by
        simpa using h
      simp [matchYear, hcond]
    case isFalse hcond => exact Option.noConfusion h
  · exact Option.noConfusion h

/-- C3 (amended): `Birthday` construction succeeds exactly on strings of
the form day `.` month `.` year where the day is one or two digits (a
two-digit day may use a space pad or, via `[1-2]\d`, any Unicode second
digit) with value 1-31, the month is one or two digits with value 1-12,
the year is exactly four digits with value at least 1, and the day exists
in that month of that year; in particular `"29.02.2024"` (leap year)
succeeds and `"29.02.2023"` fails. -/
theorem parse_birthday_characterization :
    (∀ s : String, (parseBirthday s).isSome = true ↔ birthdaySpec s) ∧
    parseBirthday "29.02.2024" = some ⟨2024, 2, 29, 0⟩ ∧
    parseBirthday "29.02.2023" = none := by
  refine ⟨fun s => ⟨?_, ?_⟩, by decide, by decide⟩
  · intro h
    cases hD : matchDay s.data with
    | none => simp [parseBirthday, hD] at h
    | some p =>
      obtain ⟨d0, r1⟩ := p
      cases r1 with
      | nil => simp [parseBirthday, hD] at h
      | cons c1 r1t =>
        by_cases hc1 : c1 = '.'
        · subst hc1
          cases hM : matchMonth r1t with
          | none => simp [parseBirthday, hD, hM] at h
          | some q =>
            obtain ⟨m0, r2⟩ := q
            cases r2 with
            | nil => simp [parseBirthday, hD, hM] at h
            | cons c2 r2t =>
              by_cases hc2 : c2 = '.'
              · subst hc2
                cases hY : matchYear r2t with
                | none => simp [parseBirthday, hD, hM, hY] at h
                | some w =>
                  obtain ⟨y0, rest⟩ := w
                  cases rest with
                  | cons e es => simp [parseBirthday, hD, hM, hY] at h
                  | nil =>
                    by_cases hv : 1 ≤ y0 ∧ d0 ≤ daysInMonth y0 m0
                    · obtain ⟨preD, hsD, hcompD⟩ := matchDay_sound hD
                      obtain ⟨preM, hsM, hcompM⟩ := matchMonth_sound hM
                      obtain ⟨a, b, c, d4, hsY, hcompY⟩ := matchYear_sound hY
                      rw [hsM] at hsD
                      rw [hsY] at hsD
                      exact ⟨preD, preM, [a, b, c, d4], d0, m0, y0, by simpa using hsD,
                        hcompD, hcompM, hcompY, hv.1, hv.2⟩
                    · simp [parseBirthday, hD, hM, hY, hv] at h
              · simp [parseBirthday, hD, hM, hc2] at h
        · simp [parseBirthday, hD, hc1] at h
  · rintro ⟨dcs, mcs, ycs, d, m, y, hs, hd, hm, hy, hy1, hdm⟩
    have hD := matchDay_complete (mcs ++ '.' :: ycs) hd
    have hM := matchMonth_complete ycs hm
    have hY := matchYear_complete hy
    simp [parseBirthday, hs, hD, hM, hY, hy1, hdm]

/-- Witness for `validate_phone_characterization` at a concrete input:
a ten-ASCII-digit string validates. -/
theorem validate_phone_characterization_witness :
    Phone.validate "0501234567" = true :=
  (validate_phone_characterization "0501234567").mpr (by decide)

/-- Witness for `parse_birthday_characterization` at a concrete input: the
space-padded `" 9.05.2024"` parses, so it admits the component
decomposition. -/
theorem parse_birthday_characterization_witness :
    birthdaySpec " 9.05.2024" :=
  (parse_birthday_characterization.1 " 9.05.2024").mp (by decide)
